import Mathlib

/-!
# Verification of the VibeCheck ingestion pipeline

Shallow embedding of the pipeline components of the `vibecheck` backend
(`src/backend/pipeline/...`) together with proofs about the behaviour the
specification describes: the scheduler health monitor, the retry policy,
entity normalization, deduplication, sentiment extraction/upsert and the
two polling jobs.

Python values that flow through the duck-typed story payloads are embedded
as the inductive `JVal`; machine floats that only ever hold small decimal
fractions are embedded as rationals; datetimes are embedded as rational
epoch offsets.  External library calls (`datetime.fromisoformat`,
`tenacity`, `hashlib.sha256`) are embedded by executable Lean models of
their documented behaviour at exactly the call sites the source uses.
-/

set_option maxRecDepth 4000

namespace VibeCheck

/-! ## Scheduler health (`backend/pipeline/scheduler.py`, `get_job_health`)

Times are embedded as rational epoch seconds; the source computes
`time_since_run = (now - last_run).total_seconds() / 60` and compares the
minutes against twice the configured interval.  The in-memory
`job_last_run` map is embedded as a lookup list from job name to the last
successful completion time (absent entry = job never succeeded). -/

/-- The static job interval table from `get_job_health` (`job_configs`):
news every 15 minutes, stories every 60 minutes. -/
def jobConfigs : List (String × ℚ) :=
  [("poll_news", 15), ("poll_stories", 60)]

/-- Per-job health report, mirroring the per-job dict built by
`get_job_health`.  `minutes_since_last_run` is kept exact (the source
additionally rounds the reported number to two decimals for display). -/
structure JobStatus where
  last_run : Option ℚ
  interval_minutes : ℚ
  overdue : Bool
  minutes_since_last_run : Option ℚ
  deriving Repr, DecidableEq

/-- One iteration of the `for job_name, config in job_configs.items()` loop
of `get_job_health`: the status dict for one job. -/
def jobStatusFor (now : ℚ) (lastRunMap : List (String × ℚ))
    (name : String) (intervalMinutes : ℚ) : JobStatus :=
  match lastRunMap.lookup name with
  | none =>
      { last_run := none
        interval_minutes := intervalMinutes
        overdue := false
        minutes_since_last_run := none }
  | some lastRun =>
      let timeSinceRun : ℚ := (now - lastRun) / 60
      { last_run := some lastRun
        interval_minutes := intervalMinutes
        overdue := decide (timeSinceRun > intervalMinutes * 2)
        minutes_since_last_run := some timeSinceRun }

/-- `get_job_health`, embedded as a pure function of the current time and
the `job_last_run` map.  Returns the overall `healthy` flag together with
the per-job statuses, iterating the static `jobConfigs` table; the source
starts from `all_healthy = True` and clears it whenever a job is overdue. -/
def get_job_health (now : ℚ) (lastRunMap : List (String × ℚ)) :
    Bool × List (String × JobStatus) :=
  jobConfigs.foldl
    (fun acc cfg =>
      let st := jobStatusFor now lastRunMap cfg.1 cfg.2
      (acc.1 && !st.overdue, acc.2 ++ [(cfg.1, st)]))
    (true, [])

/-! ## Retry policy (`news_job.py` / `stories_job.py`, tenacity decorators)

The two fetch wrappers are the `tenacity.retry` combinator applied to a
single awaited fetch call, configured with `stop_after_attempt(3)`,
`wait_exponential(multiplier=1, min=w, max=W)`,
`retry_if_exception_type((TimeoutError, ConnectionError))` and
`reraise=True`.  The combinator itself is library code, embedded here from
its documented semantics at this configuration: attempts are numbered from
1; after a retryable failure of attempt `n` (with attempts remaining) the
policy sleeps `clamp (multiplier * 2^(n-1)) [min, W]` and tries again;
a non-retryable failure or exhaustion re-raises the last error. -/

/-- Exception kinds a fetch attempt can raise.  `TimeoutError` and
`ConnectionError` are the two types in the `retry_if_exception_type`
tuple; everything else is `other`. -/
inductive FetchErr where
  | timeout
  | connection
  | other (msg : String)
  deriving Repr, DecidableEq

/-- The `retry_if_exception_type((TimeoutError, ConnectionError))`
predicate. -/
def isTransient : FetchErr → Bool
  | .timeout => true
  | .connection => true
  | .other _ => false

/-- `wait_exponential(multiplier=1, min=minW, max=maxW)` after a failure of
attempt number `attempt` (1-based): `2^(attempt-1)` seconds clamped into
`[minW, maxW]`. -/
def waitExponential (minW maxW : ℚ) (attempt : ℕ) : ℚ :=
  max minW (min ((2 : ℚ) ^ (attempt - 1)) maxW)

/-- Result of one run of a retry-wrapped fetch: the overall outcome, the
list of backoff waits performed (in order), and the number of attempts
made. -/
structure RetryRun (α : Type) where
  result : Except FetchErr α
  waits : List ℚ
  attempts : ℕ
  deriving Repr

/-- The retry loop: `remaining` attempts are still allowed, the next
attempt has 1-based number `attempt`, and `beh n` is the outcome the
wrapped fetch produces on attempt `n`. -/
def retryGo {α : Type} (minW maxW : ℚ) (beh : ℕ → Except FetchErr α) :
    (remaining attempt : ℕ) → RetryRun α
  | 0, _ => { result := .error (.other "unreachable"), waits := [], attempts := 0 }
  | 1, attempt =>
      -- last allowed attempt: its outcome is final (reraise=True)
      { result := beh attempt, waits := [], attempts := 1 }
  | remaining + 2, attempt =>
      match beh attempt with
      | .ok v => { result := .ok v, waits := [], attempts := 1 }
      | .error e =>
          if isTransient e then
            let rest := retryGo minW maxW beh (remaining + 1) (attempt + 1)
            { result := rest.result
              waits := waitExponential minW maxW attempt :: rest.waits
              attempts := rest.attempts + 1 }
          else
            { result := .error e, waits := [], attempts := 1 }

/-- A retry-wrapped fetch call: up to 3 total attempts
(`stop_after_attempt(3)`), exponential backoff clamped to
`[minW, maxW]`. -/
def retryCall {α : Type} (minW maxW : ℚ) (beh : ℕ → Except FetchErr α) :
    RetryRun α :=
  retryGo minW maxW beh 3 1

/-- `fetch_from_asknews_with_retry` (news job): retry bounds 1s–16s. -/
def fetch_from_asknews_with_retry {α : Type} (beh : ℕ → Except FetchErr α) :
    RetryRun α :=
  retryCall 1 16 beh

/-- `fetch_stories_from_asknews_with_retry` (stories job): retry bounds
2s–10s. -/
def fetch_stories_from_asknews_with_retry {α : Type} (beh : ℕ → Except FetchErr α) :
    RetryRun α :=
  retryCall 2 10 beh

/-- Outcome sequence for the C5 witness: a timeout on attempt 1, a
connection failure on attempt 2, success on attempt 3. -/
def retryScenarioBeh : ℕ → Except FetchErr ℕ :=
  fun n => if n = 1 then .error .timeout
    else if n = 2 then .error .connection else .ok 42

/-! ## Python string primitives

Executable embeddings of the Python string operations the pipeline uses:
`str.lower`, `str.strip`, and the substring operator `in`.  All inputs the
table and the claims exercise are ASCII, where `Char.toLower` agrees with
Python `str.lower`. -/

/-- Python `str.lower()` (character-wise lowering). -/
def pyLower (s : String) : String :=
  ⟨s.data.map Char.toLower⟩

/-- Python `str.strip()`: remove leading and trailing whitespace. -/
def pyStrip (s : String) : String :=
  ⟨((s.data.dropWhile Char.isWhitespace).reverse.dropWhile
      Char.isWhitespace).reverse⟩

/-- Does `pre` occur at the head of `l`? -/
def charsStartWith : List Char → List Char → Bool
  | [], _ => true
  | _ :: _, [] => false
  | a :: as, b :: bs => a == b && charsStartWith as bs

/-- Does `needle` occur as a contiguous run inside `hay`? -/
def charsContain (needle : List Char) : List Char → Bool
  | [] => needle.isEmpty
  | b :: bs => charsStartWith needle (b :: bs) || charsContain needle bs

/-- Python `needle in hay` for strings: contiguous substring test. -/
def pyIn (needle hay : String) : Bool :=
  charsContain needle.data hay.data

/-! ## Entity normalizer (`backend/pipeline/services/entity_service.py`
and `backend/utils/constants.py`)

`ENTITY_VARIATIONS` is the static variation table in its source iteration
order (Python dicts iterate in insertion order); `normalize_entity_name`
is the matching loop. -/

/-- The `ENTITY_VARIATIONS` table from `backend/utils/constants.py`,
canonical name paired with its variation strings, in source order. -/
def ENTITY_VARIATIONS : List (String × List String) :=
  [ ("GPT-4o",
      ["gpt-4o", "gpt 4o", "gpt4o", "gpt-4 omni", "openai gpt-4o",
       "chatgpt-4o", "openai's gpt-4o", "gpt-4 turbo"]),
    ("Claude",
      ["claude", "claude ai", "anthropic claude", "claude 3", "claude 3.5",
       "claude sonnet", "claude opus", "claude haiku", "anthropic's claude"]),
    ("Gemini",
      ["gemini", "google gemini", "gemini pro", "gemini ultra",
       "gemini advanced", "gemini ai", "google's gemini", "bard gemini"]),
    ("Llama",
      ["llama", "meta llama", "llama 2", "llama 3", "llama 3.1", "llama 3.2",
       "llama 3.3", "meta's llama", "meta ai llama"]),
    ("Mistral",
      ["mistral", "mistral ai", "mistral 7b", "mistral large",
       "mistral medium", "mistral small", "mixtral", "mistral's models"]),
    ("Cursor",
      ["cursor", "cursor ai", "cursor editor", "cursor ide", "cursor.sh",
       "cursor.so", "anysphere cursor"]),
    ("Lovable",
      ["lovable", "lovable.dev", "lovable ai", "gptengineer", "gpt engineer",
       "gpt-engineer"]),
    ("v0",
      ["v0", "v0.dev", "vercel v0", "v0 by vercel", "v zero", "vercel's v0"]),
    ("GitHub Copilot",
      ["github copilot", "copilot", "gh copilot", "github's copilot",
       "copilot x", "copilot chat", "microsoft copilot"]),
    ("Replit",
      ["replit", "repl.it", "replit ai", "replit ghostwriter", "ghostwriter",
       "replit agent"]) ]

/-- The per-entity test of the `normalize_entity_name` loop body: exact
equality of the normalized mention with the lowered canonical name, or
bidirectional substring containment against one of the entity's
variations (`variation_lower in normalized or normalized in
variation_lower`). -/
def entityMatchTest (normalized : String) (p : String × List String) : Bool :=
  normalized == pyLower p.1 ||
    p.2.any fun variation =>
      pyIn (pyLower variation) normalized || pyIn normalized (pyLower variation)

/-- The body of `normalize_entity_name` after the input has been
normalized: first entity of the table (in iteration order) whose exact or
variation test matches, else `None`.  Within one entity the source checks
the exact test and then the variation tests and returns the same
`canonical_name` from either, which is the disjunction `entityMatchTest`. -/
def normalizeCore (normalized : String) : Option String :=
  (ENTITY_VARIATIONS.find? (entityMatchTest normalized)).map Prod.fst

/-- `normalize_entity_name`: strip and lowercase the mention, then scan
the table. -/
def normalize_entity_name (extracted_name : String) : Option String :=
  normalizeCore (pyLower (pyStrip extracted_name))

/-- Modelled from the spec's §4.6 wording (for comparison with the code's
interleaved loop): a strict two-phase matcher that first tests exact
equality against every canonical name and only if none matches exactly
falls back to the bidirectional variation containment scan. -/
def normalizeSpecCore (normalized : String) : Option String :=
  match ENTITY_VARIATIONS.find? (fun p => normalized == pyLower p.1) with
  | some p => some p.1
  | none =>
      (ENTITY_VARIATIONS.find? fun p =>
        p.2.any fun variation =>
          pyIn (pyLower variation) normalized ||
            pyIn normalized (pyLower variation)).map Prod.fst

/-- The spec's two-phase normalizer on a raw mention. -/
def normalizeSpecTwoPhase (extracted_name : String) : Option String :=
  normalizeSpecCore (pyLower (pyStrip extracted_name))

/-! ## SHA-256 (`hashlib.sha256(url.encode("utf-8")).hexdigest()`)

`compute_url_hash` calls `hashlib`; the digest is embedded here as an
executable SHA-256 (FIPS 180-4) over `ℕ` with explicit reduction modulo
`2^32`, applied to the UTF-8 bytes of the raw URL string. -/

/-- Reduce to a 32-bit word. -/
def w32 (n : ℕ) : ℕ := n % 4294967296

/-- 32-bit right rotation. -/
def rotr32 (x n : ℕ) : ℕ := w32 ((x >>> n) ||| (x <<< (32 - n)))

/-- UTF-8 encoding of one character (as byte values). -/
def utf8Char (c : Char) : List ℕ :=
  let n := c.toNat
  if n < 128 then [n]
  else if n < 2048 then
    [192 ||| (n >>> 6), 128 ||| (n &&& 63)]
  else if n < 65536 then
    [224 ||| (n >>> 12), 128 ||| ((n >>> 6) &&& 63), 128 ||| (n &&& 63)]
  else
    [240 ||| (n >>> 18), 128 ||| ((n >>> 12) &&& 63),
     128 ||| ((n >>> 6) &&& 63), 128 ||| (n &&& 63)]

/-- `str.encode("utf-8")` as a byte list. -/
def utf8Bytes (s : String) : List ℕ :=
  (s.data.map utf8Char).flatten

/-- SHA-256 round constants. -/
def shaK : List ℕ :=
  [1116352408, 1899447441, 3049323471, 3921009573,
   961987163, 1508970993, 2453635748, 2870763221,
   3624381080, 310598401, 607225278, 1426881987,
   1925078388, 2162078206, 2614888103, 3248222580,
   3835390401, 4022224774, 264347078, 604807628,
   770255983, 1249150122, 1555081692, 1996064986,
   2554220882, 2821834349, 2952996808, 3210313671,
   3336571891, 3584528711, 113926993, 338241895,
   666307205, 773529912, 1294757372, 1396182291,
   1695183700, 1986661051, 2177026350, 2456956037,
   2730485921, 2820302411, 3259730800, 3345764771,
   3516065817, 3600352804, 4094571909, 275423344,
   430227734, 506948616, 659060556, 883997877,
   958139571, 1322822218, 1537002063, 1747873779,
   1955562222, 2024104815, 2227730452, 2361852424,
   2428436474, 2756734187, 3204031479, 3329325298]

/-- SHA-256 initial hash state. -/
def shaH0 : List ℕ :=
  [1779033703, 3144134277, 1013904242, 2773480762,
   1359893119, 2600822924, 528734635, 1541459225]

/-- Message-schedule sigma functions. -/
def sigmaS0 (x : ℕ) : ℕ := rotr32 x 7 ^^^ rotr32 x 18 ^^^ (x >>> 3)

/-- Message-schedule sigma functions. -/
def sigmaS1 (x : ℕ) : ℕ := rotr32 x 17 ^^^ rotr32 x 19 ^^^ (x >>> 10)

/-- Compression sigma functions. -/
def sigmaB0 (x : ℕ) : ℕ := rotr32 x 2 ^^^ rotr32 x 13 ^^^ rotr32 x 22

/-- Compression sigma functions. -/
def sigmaB1 (x : ℕ) : ℕ := rotr32 x 6 ^^^ rotr32 x 11 ^^^ rotr32 x 25

/-- Choice function (with 32-bit complement). -/
def chF (x y z : ℕ) : ℕ := (x &&& y) ^^^ ((x ^^^ 4294967295) &&& z)

/-- Majority function. -/
def majF (x y z : ℕ) : ℕ := (x &&& y) ^^^ (x &&& z) ^^^ (y &&& z)

/-- Extend a 16-word block schedule by `n` further words. -/
def extendW : ℕ → List ℕ → List ℕ
  | 0, w => w
  | n + 1, w =>
      let t := w.length
      let next := w32 (sigmaS1 (w.getD (t - 2) 0) + w.getD (t - 7) 0 +
        sigmaS0 (w.getD (t - 15) 0) + w.getD (t - 16) 0)
      extendW n (w ++ [next])

/-- One SHA-256 compression round on the working state. -/
def shaRound (st : ℕ × ℕ × ℕ × ℕ × ℕ × ℕ × ℕ × ℕ) (kw : ℕ × ℕ) :
    ℕ × ℕ × ℕ × ℕ × ℕ × ℕ × ℕ × ℕ :=
  let (a, b, c, d, e, f, g, h) := st
  let t1 := w32 (h + sigmaB1 e + chF e f g + kw.1 + kw.2)
  let t2 := w32 (sigmaB0 a + majF a b c)
  (w32 (t1 + t2), a, b, c, w32 (d + t1), e, f, g)

/-- Process one 16-word block against the intermediate hash. -/
def processBlock (h : List ℕ) (block : List ℕ) : List ℕ :=
  let w := extendW 48 block
  let a0 := h.getD 0 0
  let b0 := h.getD 1 0
  let c0 := h.getD 2 0
  let d0 := h.getD 3 0
  let e0 := h.getD 4 0
  let f0 := h.getD 5 0
  let g0 := h.getD 6 0
  let h0 := h.getD 7 0
  let (a, b, c, d, e, f, g, hh) :=
    (shaK.zip w).foldl shaRound (a0, b0, c0, d0, e0, f0, g0, h0)
  [w32 (a0 + a), w32 (b0 + b), w32 (c0 + c), w32 (d0 + d),
   w32 (e0 + e), w32 (f0 + f), w32 (g0 + g), w32 (h0 + hh)]

/-- Split a byte list into 64-byte chunks (fuel-driven). -/
def chunk64 : ℕ → List ℕ → List (List ℕ)
  | 0, _ => []
  | fuel + 1, l => if l.isEmpty then [] else l.take 64 :: chunk64 fuel (l.drop 64)

/-- Group bytes into big-endian 32-bit words. -/
def bytesToWords : List ℕ → List ℕ
  | b0 :: b1 :: b2 :: b3 :: rest =>
      (((b0 * 256 + b1) * 256 + b2) * 256 + b3) :: bytesToWords rest
  | _ => []

/-- SHA-256 of a byte message: pad, split into blocks, fold the
compression function. -/
def sha256Words (msg : List ℕ) : List ℕ :=
  let L := msg.length
  let padLen := (64 + 56 - (L + 1) % 64) % 64
  let lenBytes := (List.range 8).map fun i => (8 * L) >>> (8 * (7 - i)) &&& 255
  let padded := msg ++ 128 :: (List.replicate padLen 0 ++ lenBytes)
  ((chunk64 padded.length padded).map bytesToWords).foldl processBlock shaH0

/-- One lowercase hex digit. -/
def hexDigit (n : ℕ) : Char :=
  if n < 10 then Char.ofNat (48 + n) else Char.ofNat (87 + n)

/-- Eight lowercase hex digits of one 32-bit word. -/
def word8Hex (w : ℕ) : List Char :=
  (List.range 8).map fun i => hexDigit ((w >>> (28 - 4 * i)) &&& 15)

/-- `hexdigest()` of the SHA-256 of a byte message: 64 lowercase hex
characters. -/
def sha256Hex (msg : List ℕ) : String :=
  ⟨((sha256Words msg).map word8Hex).flatten⟩

/-! ## Deduplication (`backend/pipeline/services/deduplication_service.py`)

The `articles` table is embedded as a list of rows carrying the columns
the dedup queries touch (`external_id`, `url`, `url_hash`). -/

/-- A persisted article row (the columns the deduplication queries
read). -/
structure ArticleRow where
  external_id : String
  url : String
  url_hash : String
  deriving Repr, DecidableEq

/-- A candidate article from a fetch batch (the keys the deduplication
and storage steps read: `external_id`, `url`, and the raw `entity` name
the storage service normalizes). -/
structure CandidateArticle where
  external_id : String
  url : String
  entity : String
  deriving Repr, DecidableEq

/-- `compute_url_hash`: SHA-256 hexdigest of the UTF-8 bytes of the raw
URL string (no normalization or lowercasing of the URL). -/
def compute_url_hash (url : String) : String :=
  sha256Hex (utf8Bytes url)

/-- `check_article_exists`: duplicate if some row matches the external id,
else if some row matches the URL hash.  The source runs the two `SELECT`s
in sequence and returns `True` from whichever hits first; the result is
their disjunction. -/
def check_article_exists (external_id url : String)
    (store : List ArticleRow) : Bool :=
  store.any (fun r => r.external_id == external_id) ||
    store.any (fun r => r.url_hash == compute_url_hash url)

/-- `batch_check_duplicates`: fold over the input batch appending
non-duplicates to `to_insert` and counting duplicates. -/
def batch_check_duplicates (articles : List CandidateArticle)
    (store : List ArticleRow) : List CandidateArticle × ℕ :=
  articles.foldl
    (fun acc a =>
      if check_article_exists a.external_id a.url store
      then (acc.1, acc.2 + 1)
      else (acc.1 ++ [a], acc.2))
    ([], 0)

/-- The row the storage service inserts for a candidate
(`batch_insert_articles` sets `url_hash = compute_url_hash(article.url)`). -/
def insertedRow (a : CandidateArticle) : ArticleRow :=
  { external_id := a.external_id, url := a.url,
    url_hash := compute_url_hash a.url }

/-! ## Python values (duck-typed story payloads)

The story payloads flowing through `extract_story_sentiment` are embedded
as `JVal`: Python `None`/bool/number/string/datetime/list/dict values.
Numbers (int and float) are embedded as exact rationals; datetime objects
as rational timestamps.  Exceptions are embedded as `Except Unit`. -/

/-- A Python value as seen by the sentiment extractor. -/
inductive JVal where
  | null
  | bool (b : Bool)
  | num (q : ℚ)
  | str (s : String)
  | dt (t : ℚ)
  | list (l : List JVal)
  | dict (d : List (String × JVal))

/-- Python truthiness. -/
def truthy : JVal → Bool
  | .null => false
  | .bool b => b
  | .num q => decide (q ≠ 0)
  | .str s => decide (s ≠ "")
  | .dt _ => true
  | .list l => !l.isEmpty
  | .dict d => !d.isEmpty

/-- Python `a or b` (short-circuit on truthiness). -/
def pyOr (a b : JVal) : JVal := if truthy a then a else b

/-- Python `x is None`. -/
def isNull : JVal → Bool
  | .null => true
  | _ => false

/-- `dict.get(k)`: value for the first matching key, else `None`. -/
def dictGet (d : List (String × JVal)) (k : String) : JVal :=
  match d.lookup k with
  | some v => v
  | none => JVal.null

/-- `dict.get(k, default)`. -/
def dictGetD (d : List (String × JVal)) (k : String) (dflt : JVal) : JVal :=
  match d.lookup k with
  | some v => v
  | none => dflt

/-- `d.keys()` of a dict value (and `[]` on non-dicts). -/
def jKeys : JVal → List String
  | .dict d => d.map Prod.fst
  | _ => []

/-- Key lookup on a dict value, `none` when the key is absent or the value
is not a dict. -/
def jLook (v : JVal) (k : String) : Option JVal :=
  match v with
  | .dict d => d.lookup k
  | _ => none

/-- Decimal digits to a natural number. -/
def digitsToNat (l : List Char) : ℕ :=
  l.foldl (fun n c => 10 * n + (c.toNat - 48)) 0

/-- The numeric-literal fragment of Python `float(str)`: optional sign,
decimal digits with an optional fractional part (the source only ever
receives plain decimal sentiment strings; exponents and special values
are outside the model). -/
def parseUnsignedFloat (cs : List Char) : Option ℚ :=
  let intPart := cs.takeWhile Char.isDigit
  let rest := cs.dropWhile Char.isDigit
  match rest with
  | [] => if intPart.isEmpty then none else some (digitsToNat intPart)
  | '.' :: frac =>
      if frac.all Char.isDigit && !(intPart.isEmpty && frac.isEmpty) then
        some (digitsToNat intPart + digitsToNat frac / (10 : ℚ) ^ frac.length)
      else none
  | _ => none

/-- Python `float(str)` after stripping surrounding whitespace. -/
def parseFloatStr (s : String) : Option ℚ :=
  match (s.data.dropWhile Char.isWhitespace).reverse.dropWhile
      Char.isWhitespace |>.reverse with
  | '+' :: cs => parseUnsignedFloat cs
  | '-' :: cs => (parseUnsignedFloat cs).map Neg.neg
  | cs => parseUnsignedFloat cs

/-- Python `float(x)`: numbers pass through, bools become 0/1, numeric
strings are parsed; everything else raises (`none`). -/
def pyFloat : JVal → Option ℚ
  | .bool b => some (if b then 1 else 0)
  | .num q => some q
  | .str s => parseFloatStr s
  | _ => none

/-- Python `int(str)`: optional sign and decimal digits only. -/
def pyIntStr (s : String) : Option ℤ :=
  let core := (s.data.dropWhile Char.isWhitespace).reverse.dropWhile
    Char.isWhitespace |>.reverse
  match core with
  | '+' :: cs =>
      if cs.isEmpty || !cs.all Char.isDigit then none
      else some (digitsToNat cs)
  | '-' :: cs =>
      if cs.isEmpty || !cs.all Char.isDigit then none
      else some (-(digitsToNat cs : ℤ))
  | cs =>
      if cs.isEmpty || !cs.all Char.isDigit then none
      else some (digitsToNat cs)

/-- Python `int(x)`: ints pass through, floats truncate toward zero, bools
become 0/1, integer strings are parsed; everything else raises. -/
def pyInt : JVal → Option ℤ
  | .bool b => some (if b then 1 else 0)
  | .num q => some (q.num.tdiv q.den)
  | .str s => pyIntStr s
  | _ => none

/-! ## Sentiment extraction
(`backend/pipeline/services/sentiment_service.py`, `extract_story_sentiment`)

`datetime.fromisoformat` is an external library call; the extractor is
embedded parametrically in a parser `parse : String → Option ℚ` (`none`
embeds `ValueError`).  `fromisoformatModel` below is a concrete executable
model of it for the ISO-8601 shape the scenarios use. -/

/-- `timestamp_str.replace("Z", "+00:00")`: replace every occurrence of
the single character `Z`. -/
def replaceZ (s : String) : String :=
  ⟨(s.data.map fun c =>
      if c = 'Z' then "+00:00".data else [c]).flatten⟩

/-- Modelled from the documented behaviour of `datetime.fromisoformat` at
this call site: accepts `YYYY-MM-DDTHH:MM:SS` with an optional `+00:00`
suffix and returns a rational encoding of the datetime (only identity of
the parsed value matters to the claims); anything else raises
(`none`). -/
def fromisoformatModel (s : String) : Option ℚ :=
  let cs := s.data
  let core :=
    if cs.length == 25 && cs.drop 19 == "+00:00".data then cs.take 19 else cs
  match core with
  | [y1, y2, y3, y4, c1, mo1, mo2, c2, d1, d2, c3,
     h1, h2, c4, mi1, mi2, c5, s1, s2] =>
      if c1 == '-' && c2 == '-' && c3 == 'T' && c4 == ':' && c5 == ':' &&
         [y1, y2, y3, y4, mo1, mo2, d1, d2, h1, h2, mi1, mi2, s1, s2].all
           Char.isDigit then
        some (digitsToNat
          [y1, y2, y3, y4, mo1, mo2, d1, d2, h1, h2, mi1, mi2, s1, s2])
      else none
  | _ => none

/-- `point.get("timestamp") or point.get("time") or point.get("date")`. -/
def tsChainVal (e : List (String × JVal)) : JVal :=
  pyOr (dictGet e "timestamp") (pyOr (dictGet e "time") (dictGet e "date"))

/-- `point.get("sentiment") or point.get("sentiment_mean")`. -/
def sentChainVal (e : List (String × JVal)) : JVal :=
  pyOr (dictGet e "sentiment") (dictGet e "sentiment_mean")

/-- `point.get("article_count") or point.get("count", 1)`. -/
def countChainVal (e : List (String × JVal)) : JVal :=
  pyOr (dictGet e "article_count") (dictGetD e "count" (.num 1))

/-- The body of the `for point in timeseries_data` loop: compute the
or-chained timestamp, sentiment and count values, and emit one time point
when the timestamp chain is truthy and the sentiment chain non-`None`.
A string timestamp that fails to parse is skipped (`ValueError` caught,
`continue`); a failing `float(sentiment)` or `int(count)` raises out of
the loop (`Except.error`, caught only by the function-level handler);
a non-dict entry raises at the first `.get`. -/
def processEntry (parse : String → Option ℚ) (point : JVal) :
    Except Unit (Option JVal) :=
  match point with
  | .dict e =>
      if truthy (tsChainVal e) && !isNull (sentChainVal e) then
        let tsv : Option JVal :=
          match tsChainVal e with
          | .str s => (parse (replaceZ s)).map JVal.dt
          | v => some v
        match tsv with
        | none => .ok none
        | some tval =>
            match pyFloat (sentChainVal e), pyInt (countChainVal e) with
            | some q, some n =>
                .ok (some (.dict
                  [("timestamp", tval), ("sentiment_mean", .num q),
                   ("article_count", .num (n : ℚ))]))
            | _, _ => .error ()
      else .ok none
  | _ => .error ()

/-- The full time-series loop, emitting points in entry order. -/
def extractTimeseries (parse : String → Option ℚ) :
    List JVal → Except Unit (List JVal)
  | [] => .ok []
  | p :: ps =>
      match processEntry parse p with
      | .error e => .error e
      | .ok r =>
          match extractTimeseries parse ps with
          | .error e => .error e
          | .ok rest =>
              .ok (match r with
                | some pt => pt :: rest
                | none => rest)

/-- The body of the `for thread in reddit_threads` loop: the or-chained
sentiment/score value is appended when non-`None` and `float`-coercible;
a coercion failure is passed over (`except (ValueError, TypeError):
pass`); a non-dict thread raises at `.get`. -/
def threadVal (thread : JVal) : Except Unit (Option ℚ) :=
  match thread with
  | .dict e =>
      let v := pyOr (dictGet e "sentiment") (dictGet e "score")
      if isNull v then .ok none
      else .ok (pyFloat v)
  | _ => .error ()

/-- Collect the usable Reddit sentiment values of all threads, in
order. -/
def collectReddit : List JVal → Except Unit (List ℚ)
  | [] => .ok []
  | t :: ts =>
      match threadVal t with
      | .error e => .error e
      | .ok r =>
          match collectReddit ts with
          | .error e => .error e
          | .ok rest =>
              .ok (match r with
                | some q => q :: rest
                | none => rest)

/-- The Reddit section of the extractor: thread count is the list length
when the threads value is a nonempty list, the mean is over the collected
usable values (`None` when there are none). -/
def redditAgg (ts : List JVal) : Except Unit (Option ℚ × ℕ) :=
  if ts.isEmpty then .ok (none, 0)
  else
    match collectReddit ts with
    | .error e => .error e
    | .ok qs =>
        .ok ((if qs.isEmpty then none
              else some (qs.sum / (qs.length : ℚ))), ts.length)

/-- The time-series section of the extractor: the loop over
`story_data.get("sentiment_timeseries", [])`, skipped entirely when the
value is not a list (the `isinstance` guard). -/
def timeseriesPart (parse : String → Option ℚ)
    (d : List (String × JVal)) : Except Unit (List JVal) :=
  match dictGetD d "sentiment_timeseries" (.list []) with
  | .list entries => extractTimeseries parse entries
  | _ => .ok []

/-- The Reddit section applied to
`story_data.get("reddit_threads", [])`: the aggregate over the list, or
the empty aggregate when the value is not a list. -/
def redditPart (d : List (String × JVal)) : Except Unit (Option ℚ × ℕ) :=
  match dictGetD d "reddit_threads" (.list []) with
  | .list ts => redditAgg ts
  | _ => .ok (none, 0)

/-- The `try`-block body of `extract_story_sentiment`: time-series points,
Reddit mean and Reddit thread count (the source computes the time-series
section first, then the Reddit section). -/
def extractCore (parse : String → Option ℚ) (story : JVal) :
    Except Unit (List JVal × Option ℚ × ℕ) :=
  match story with
  | .dict d =>
      match timeseriesPart parse d with
      | .error e => .error e
      | .ok timeseries =>
          match redditPart d with
          | .error e => .error e
          | .ok (rs, n) => .ok (timeseries, rs, n)
  | _ => .error ()

/-- An optional rational as the Python value stored in the result dict. -/
def jOfOptQ : Option ℚ → JVal
  | some q => .num q
  | none => .null

/-- `extract_story_sentiment`: returns the result dict, falling back to
the empty aggregate (no points, `None` Reddit sentiment, zero threads)
when the body raises.  (For non-dict payloads the source's `except`
handler itself raises; the embedding is about dict payloads, where the
handler's `story_data.get("story_id")` is total.) -/
def extract_story_sentiment (parse : String → Option ℚ) (story : JVal) :
    JVal :=
  let sid :=
    match story with
    | .dict d => dictGet d "story_id"
    | _ => JVal.null
  match extractCore parse story with
  | .ok (ts, rs, n) =>
      .dict [("timeseries", .list ts),
             ("reddit_sentiment", jOfOptQ rs),
             ("reddit_thread_count", .num (n : ℚ)),
             ("story_id", sid),
             ("has_reddit", .bool (decide (n > 0)))]
  | .error _ =>
      .dict [("timeseries", .list []),
             ("reddit_sentiment", .null),
             ("reddit_thread_count", .num 0),
             ("story_id", sid),
             ("has_reddit", .bool false)]

/-- The usable Reddit sentiment value of one thread entry, written to the
spec's amended wording: the or-chained sentiment/score value when
non-`None` and float-coercible. -/
def redditUsableVal : JVal → Option ℚ
  | .dict e =>
      let v := pyOr (dictGet e "sentiment") (dictGet e "score")
      if isNull v then none else pyFloat v
  | _ => none

/-- Modelled from the spec's §4.7 wording (amended): the Reddit mean is
the arithmetic mean over the usable thread values, `None` (not zero) when
there are none. -/
def redditMeanSpec (ts : List JVal) : Option ℚ :=
  let qs := ts.filterMap redditUsableVal
  if qs.isEmpty then none else some (qs.sum / (qs.length : ℚ))

/-! ## Concrete payloads for the scenarios -/

/-- The rational 0.5 as an explicit normalized fraction. -/
def qHalf : ℚ := ⟨1, 2, by decide, by decide⟩

/-- The rational 0.8 as an explicit normalized fraction. -/
def qFourFifths : ℚ := ⟨4, 5, by decide, by decide⟩

/-- The rational 0.2 as an explicit normalized fraction. -/
def qFifth : ℚ := ⟨1, 5, by decide, by decide⟩

/-- The single time-series entry of the §8 sentiment-extraction scenario:
`{"timestamp": "2025-01-01T00:00:00Z", "sentiment": 0.5,
"article_count": 3}`. -/
def entry8 : List (String × JVal) :=
  [("timestamp", .str "2025-01-01T00:00:00Z"), ("sentiment", .num qHalf),
   ("article_count", .num 3)]

/-- The §8 sentiment-extraction scenario story payload. -/
def story8 : JVal :=
  .dict [("sentiment_timeseries", .list [.dict entry8]),
         ("reddit_threads",
           .list [.dict [("sentiment", .num qFourFifths)],
                  .dict [("sentiment", .num qFifth)]])]

/-- A time-series entry carrying a parseable timestamp and the non-null
sentiment value `0` under the accepted key `sentiment` (and no
`sentiment_mean`). -/
def entryZeroSent : List (String × JVal) :=
  [("timestamp", .str "2025-01-01T00:00:00Z"), ("sentiment", .num 0)]

/-- A story whose only time-series entry is `entryZeroSent`. -/
def storyZeroSent : JVal :=
  .dict [("sentiment_timeseries", .list [.dict entryZeroSent])]

/-- A story with two Reddit threads carrying numeric sentiments 0 and 1. -/
def storyZeroOneThreads : JVal :=
  .dict [("reddit_threads",
    .list [.dict [("sentiment", .num 0)], .dict [("sentiment", .num 1)]])]

/-- A story whose `sentiment_timeseries` contains a non-dict entry, making
the extraction body raise (`AttributeError` at `point.get`). -/
def storyBadEntry : JVal :=
  .dict [("sentiment_timeseries", .list [.num 5])]

/-! ## Sentiment upsert
(`backend/pipeline/services/sentiment_service.py`, `store_sentiment_timeseries`)

The `sentiment_timeseries` table is embedded as a list of rows together
with a `failing` flag embedding the connectivity/constraint failures the
source catches (`except Exception: rollback; return False`).  The happy
path is `INSERT ... ON CONFLICT DO NOTHING` against the unique constraint
on `(entity_id, timestamp, period)` (migration 002), followed by `commit`
and `return True`. -/

/-- One sentiment time-series row (the columns the upsert writes;
timestamps are embedded as rational epoch values, numeric columns as
optional rationals). -/
structure SPoint where
  entity_id : ℕ
  timestamp : ℚ
  period : String
  sentiment_mean : Option ℚ
  sentiment_min : Option ℚ
  sentiment_max : Option ℚ
  sentiment_std : Option ℚ
  article_count : Option ℚ
  reddit_sentiment : Option ℚ
  reddit_thread_count : Option ℚ
  deriving Repr, DecidableEq

/-- The database holding the `sentiment_timeseries` table; `failing`
embeds a connection/constraint failure on the next statement. -/
structure SentimentDb where
  rows : List SPoint
  failing : Bool
  deriving Repr, DecidableEq

/-- The conflict key of the unique constraint
`(entity_id, timestamp, period)`. -/
def sameKey (a b : SPoint) : Bool :=
  decide (a.entity_id = b.entity_id) && decide (a.timestamp = b.timestamp) &&
    decide (a.period = b.period)

/-- Number of persisted rows sharing `p`'s conflict key. -/
def keyCount (p : SPoint) (db : SentimentDb) : ℕ :=
  (db.rows.filter (sameKey p)).length

/-- `store_sentiment_timeseries`: on a healthy database the insert is a
no-op when a row with the conflict key exists (`ON CONFLICT DO NOTHING`)
and appends the row otherwise; either way the commit succeeds and the
function returns `True`.  On a failing database the statement raises, the
transaction is rolled back and the function returns `False`. -/
def store_sentiment_timeseries (p : SPoint) (db : SentimentDb) :
    Bool × SentimentDb :=
  if db.failing then (false, db)
  else if db.rows.any (sameKey p) then (true, db)
  else (true, { db with rows := db.rows ++ [p] })

/-! ## News job (`backend/pipeline/jobs/news_job.py`, `poll_news_job`)

The fetch (already wrapped by the retry policy) is embedded as a function
from entity name to either the fetched article batch or the error string
of the exception that exhausted it; client construction as
`Except String Unit`.  The per-article timestamp/sentiment coercions of
the transform step touch fields the claims do not read and are carried
inside `CandidateArticle` implicitly. -/

/-- `batch_insert_articles` (`storage_service.py`): drop duplicates, drop
articles whose entity fails to normalize, insert the rest (with their URL
hash) and return the inserted count. -/
def batch_insert_articles (articles : List CandidateArticle)
    (store : List ArticleRow) : ℕ × List ArticleRow :=
  if articles.isEmpty then (0, store)
  else
    let to_insert := (batch_check_duplicates articles store).1
    let normalized :=
      to_insert.filter fun a => (normalize_entity_name a.entity).isSome
    (normalized.length, store ++ normalized.map insertedRow)

/-- The news job statistics record (`stats` dict of `poll_news_job`; the
wall-clock fields are carried separately by `newsStatsDict`). -/
structure NewsStats where
  entities_processed : ℕ
  entities_failed : ℕ
  total_articles_fetched : ℕ
  total_articles_inserted : ℕ
  errors : List (String × String)
  deriving Repr, DecidableEq

/-- The all-zero news statistics the job starts from. -/
def zeroNewsStats : NewsStats := ⟨0, 0, 0, 0, []⟩

/-- The body of the `for entity_name in ENTITY_NAMES` loop: a failed fetch
records one `{entity, error}` pair and one failed count; a successful
fetch counts the articles, inserts the non-empty batch and marks the
entity processed. -/
def newsStep (fetch : String → Except String (List CandidateArticle))
    (acc : NewsStats × List ArticleRow) (entity_name : String) :
    NewsStats × List ArticleRow :=
  match fetch entity_name with
  | .error exc =>
      ({ acc.1 with
          entities_failed := acc.1.entities_failed + 1
          errors := acc.1.errors ++ [(entity_name, exc)] }, acc.2)
  | .ok articles =>
      if articles.isEmpty then
        ({ acc.1 with
            total_articles_fetched :=
              acc.1.total_articles_fetched + articles.length
            entities_processed := acc.1.entities_processed + 1 }, acc.2)
      else
        let r := batch_insert_articles articles acc.2
        ({ acc.1 with
            total_articles_fetched :=
              acc.1.total_articles_fetched + articles.length
            total_articles_inserted := acc.1.total_articles_inserted + r.1
            entities_processed := acc.1.entities_processed + 1 }, r.2)

/-- The news job's per-entity loop. -/
def newsLoop (fetch : String → Except String (List CandidateArticle))
    (entities : List String) (acc : NewsStats × List ArticleRow) :
    NewsStats × List ArticleRow :=
  entities.foldl (newsStep fetch) acc

/-- `poll_news_job`: a failed client construction short-circuits with
every entity failed, nothing fetched or inserted and the single error
under the pseudo-entity `"ALL"`; otherwise the per-entity loop runs. -/
def poll_news_job (init : Except String Unit)
    (fetch : String → Except String (List CandidateArticle))
    (entities : List String) (store : List ArticleRow) :
    NewsStats × List ArticleRow :=
  match init with
  | .error exc => (⟨0, entities.length, 0, 0, [("ALL", exc)]⟩, store)
  | .ok _ => newsLoop fetch entities (zeroNewsStats, store)

/-- The store evolution of the news loop alone (failures leave the store
untouched). -/
def newsStoreRun (fetch : String → Except String (List CandidateArticle)) :
    List String → List ArticleRow → List ArticleRow
  | [], store => store
  | n :: es, store =>
      match fetch n with
      | .error _ => newsStoreRun fetch es store
      | .ok articles =>
          if articles.isEmpty then newsStoreRun fetch es store
          else newsStoreRun fetch es (batch_insert_articles articles store).2

/-- Does the fetch of this entity succeed? -/
def fetchOkB (fetch : String → Except String (List CandidateArticle))
    (n : String) : Bool :=
  match fetch n with
  | .ok _ => true
  | .error _ => false

/-- The `{entity, error}` pair a failing entity contributes. -/
def newsFailPair (fetch : String → Except String (List CandidateArticle))
    (n : String) : Option (String × String) :=
  match fetch n with
  | .error m => some (n, m)
  | .ok _ => none

/-- The Python dict `poll_news_job` returns, with the wall-clock values as
parameters. -/
def newsStatsDict (st : NewsStats) (started completed : String) (dur : ℚ) :
    List (String × JVal) :=
  [("job", .str "poll_news"),
   ("started_at", .str started),
   ("completed_at", .str completed),
   ("duration_seconds", .num dur),
   ("entities_processed", .num st.entities_processed),
   ("entities_failed", .num st.entities_failed),
   ("total_articles_fetched", .num st.total_articles_fetched),
   ("total_articles_inserted", .num st.total_articles_inserted),
   ("errors", .list (st.errors.map fun p =>
      .dict [("entity", .str p.1), ("error", .str p.2)]))]

/-! ## Stories job (`backend/pipeline/jobs/stories_job.py`, `poll_stories_job`)

The per-entity outcome (entity lookup plus retry-wrapped fetch) is
embedded as `StoryFetch`; the statistics record has no error list — the
source's `stats` dict never carries one. -/

/-- The stories job statistics record (the `stats` dict of
`poll_stories_job`; `execution_time` is carried by `storiesStatsDict`). -/
structure StoriesStats where
  total_entities : ℕ
  successful : ℕ
  failed : ℕ
  total_stories : ℕ
  stories_with_reddit : ℕ
  stories_without_reddit : ℕ
  timeseries_points_stored : ℕ
  deriving Repr, DecidableEq

/-- The initial stories statistics. -/
def initialStoriesStats (n : ℕ) : StoriesStats := ⟨n, 0, 0, 0, 0, 0, 0⟩

/-- Per-entity outcome of the entity lookup and retry-wrapped fetch. -/
inductive StoryFetch where
  | noEntity
  | fetchFail (msg : String)
  | fetched (entity_id : ℕ) (stories : List JVal)

/-- An optional JVal field as the optional numeric column value the upsert
receives. -/
def toOptQ : Option JVal → Option ℚ
  | some (.num q) => some q
  | _ => none

/-- The timestamp column value of a stored point
(`timestamp=point["timestamp"]`); values that are neither datetimes nor
numbers would be rejected by the database layer and are not exercised by
the claims. -/
def pointTimestamp : Option JVal → ℚ
  | some (.dt t) => t
  | some (.num q) => q
  | _ => 0

/-- The upsert row built by the stories loop for one extracted point
(lines 183–193 of the source: entity id, point timestamp/mean/count, the
story's Reddit aggredate, period "hourly"; min/max/std are not passed). -/
def mkStoryPoint (eid : ℕ) (sd point : JVal) : SPoint :=
  { entity_id := eid
    timestamp := pointTimestamp (jLook point "timestamp")
    period := "hourly"
    sentiment_mean := toOptQ (jLook point "sentiment_mean")
    sentiment_min := none
    sentiment_max := none
    sentiment_std := none
    article_count := toOptQ (jLook point "article_count")
    reddit_sentiment := toOptQ (jLook sd "reddit_sentiment")
    reddit_thread_count := toOptQ (jLook sd "reddit_thread_count") }

/-- The `for point in sentiment_data["timeseries"]` loop: store each
point, counting it exactly when the upsert reports `True`. -/
def storePointsForStory (eid : ℕ) (sd : JVal) (pts : List JVal)
    (cnt : ℕ) (db : SentimentDb) : ℕ × SentimentDb :=
  pts.foldl
    (fun acc point =>
      let r := store_sentiment_timeseries (mkStoryPoint eid sd point) acc.2
      ((if r.1 then acc.1 + 1 else acc.1), r.2))
    (cnt, db)

/-- The body of the `for story in stories` loop: extract, count the Reddit
flag, store the points. -/
def storiesStoryStep (parse : String → Option ℚ) (eid : ℕ)
    (acc : StoriesStats × SentimentDb) (story : JVal) :
    StoriesStats × SentimentDb :=
  let sd := extract_story_sentiment parse story
  let st :=
    match jLook sd "has_reddit" with
    | some (.bool true) =>
        { acc.1 with stories_with_reddit := acc.1.stories_with_reddit + 1 }
    | _ =>
        { acc.1 with
            stories_without_reddit := acc.1.stories_without_reddit + 1 }
  let pts :=
    match jLook sd "timeseries" with
    | some (.list l) => l
    | _ => []
  let r := storePointsForStory eid sd pts st.timeseries_points_stored acc.2
  ({ st with timeseries_points_stored := r.1 }, r.2)

/-- The body of the `for entity_config in CURATED_ENTITIES` loop: a
missing entity or failed fetch records one failed count; a successful
fetch counts the stories and processes each one. -/
def storiesStep (parse : String → Option ℚ) (out : String → StoryFetch)
    (acc : StoriesStats × SentimentDb) (name : String) :
    StoriesStats × SentimentDb :=
  match out name with
  | .noEntity => ({ acc.1 with failed := acc.1.failed + 1 }, acc.2)
  | .fetchFail _ => ({ acc.1 with failed := acc.1.failed + 1 }, acc.2)
  | .fetched eid stories =>
      let st :=
        { acc.1 with
            successful := acc.1.successful + 1
            total_stories := acc.1.total_stories + stories.length }
      stories.foldl (storiesStoryStep parse eid) (st, acc.2)

/-- The stories job's per-entity loop. -/
def storiesLoop (parse : String → Option ℚ) (out : String → StoryFetch)
    (entities : List String) (acc : StoriesStats × SentimentDb) :
    StoriesStats × SentimentDb :=
  entities.foldl (storiesStep parse out) acc

/-- `poll_stories_job`: a failed client construction short-circuits,
marking every entity failed and returning the otherwise-initial
statistics (no error list exists in this record); otherwise the
per-entity loop runs. -/
def poll_stories_job (init : Except String Unit)
    (parse : String → Option ℚ) (out : String → StoryFetch)
    (entities : List String) (db : SentimentDb) :
    StoriesStats × SentimentDb :=
  match init with
  | .error _ =>
      ({ initialStoriesStats entities.length with
          failed := entities.length }, db)
  | .ok _ => storiesLoop parse out entities (initialStoriesStats entities.length, db)

/-- Did the entity's lookup and fetch both succeed? -/
def storyOkB (out : String → StoryFetch) (n : String) : Bool :=
  match out n with
  | .fetched _ _ => true
  | _ => false

/-- The database evolution of one story (stats-free). -/
def storyDbStep (parse : String → Option ℚ) (eid : ℕ) (db : SentimentDb)
    (story : JVal) : SentimentDb :=
  let sd := extract_story_sentiment parse story
  let pts :=
    match jLook sd "timeseries" with
    | some (.list l) => l
    | _ => []
  pts.foldl
    (fun db point =>
      (store_sentiment_timeseries (mkStoryPoint eid sd point) db).2) db

/-- The database evolution of the stories loop alone (failures leave it
untouched). -/
def storiesDbRun (parse : String → Option ℚ) (out : String → StoryFetch) :
    List String → SentimentDb → SentimentDb
  | [], db => db
  | n :: es, db =>
      match out n with
      | .fetched eid stories =>
          storiesDbRun parse out es
            (stories.foldl (storyDbStep parse eid) db)
      | _ => storiesDbRun parse out es db

/-- The Python dict `poll_stories_job` returns (its fixed key set — in
particular it carries no list of failures), with the wall-clock value as
a parameter. -/
def storiesStatsDict (st : StoriesStats) (execTime : ℚ) :
    List (String × JVal) :=
  [("total_entities", .num st.total_entities),
   ("successful", .num st.successful),
   ("failed", .num st.failed),
   ("total_stories", .num st.total_stories),
   ("stories_with_reddit", .num st.stories_with_reddit),
   ("stories_without_reddit", .num st.stories_without_reddit),
   ("timeseries_points_stored", .num st.timeseries_points_stored),
   ("execution_time", .num execTime)]

/-- The `ENTITY_NAMES` constant (`backend/utils/constants.py`): the names
of the ten curated entities, in order. -/
def ENTITY_NAMES : List String :=
  ["GPT-4o", "Claude", "Gemini", "Llama", "Mistral",
   "Cursor", "Lovable", "v0", "GitHub Copilot", "Replit"]

/-- A concrete sentiment row for the upsert scenarios. -/
def cpoint : SPoint :=
  ⟨1, 0, "hourly", some 0, none, none, none, some 1, none, some 0⟩

/-- A concrete extracted time point for the stories-loop scenario. -/
def cJPoint : JVal :=
  .dict [("timestamp", .dt 0), ("sentiment_mean", .num 0),
         ("article_count", .num 1)]

/-- A concrete extraction record for the stories-loop scenario. -/
def cSd : JVal :=
  .dict [("reddit_sentiment", .null), ("reddit_thread_count", .num 0)]

/-! ## Theorems -/

/-! ### C1: sentiment upsert -/

/-- Helper: on a healthy database the upsert always reports `True`. -/
theorem store_fst (p : SPoint) (db : SentimentDb) (h : db.failing = false) :
    (store_sentiment_timeseries p db).1 = true := by
  rw [store_sentiment_timeseries, if_neg (by simp [h])]
  by_cases hc : db.rows.any (sameKey p) = true
  · rw [if_pos hc]
  · rw [if_neg hc]

/-- Helper: the upsert preserves database health. -/
theorem store_failing (p : SPoint) (db : SentimentDb)
    (h : db.failing = false) :
    (store_sentiment_timeseries p db).2.failing = false := by
  rw [store_sentiment_timeseries, if_neg (by simp [h])]
  by_cases hc : db.rows.any (sameKey p) = true
  · rw [if_pos hc]; exact h
  · rw [if_neg hc]; exact h

/-- Helper: the conflict key relation is reflexive. -/
theorem sameKey_refl (p : SPoint) : sameKey p p = true := by
  simp [sameKey]

/-- Claim C1 (amended): against a healthy store, re-storing an
already-persisted bucket is a silent no-op that leaves exactly one row
with the `(entity, timestamp, period)` key and is never reported as an
error — but it is reported as `True` (stored), the same answer as a fresh
insert, so the stories loop counts every successfully-upserted point
(`cnt + pts.length`) whether or not it was newly persisted; only a
genuine database failure yields `False` (with the store unchanged). -/
theorem upsert_idempotent_spec :
    (∀ (p : SPoint) (db : SentimentDb), db.failing = false →
      db.rows.any (sameKey p) = true →
      store_sentiment_timeseries p db = (true, db)) ∧
    (∀ (p : SPoint) (db : SentimentDb), db.failing = false →
      db.rows.any (sameKey p) = false →
      store_sentiment_timeseries p db =
        (true, { db with rows := db.rows ++ [p] })) ∧
    (∀ (p : SPoint) (db : SentimentDb), db.failing = false →
      keyCount p db = 0 →
      keyCount p (store_sentiment_timeseries p
        ((store_sentiment_timeseries p db).2)).2 = 1) ∧
    (∀ (p : SPoint) (db : SentimentDb), db.failing = true →
      store_sentiment_timeseries p db = (false, db)) ∧
    (∀ (eid : ℕ) (sd : JVal) (pts : List JVal) (cnt : ℕ) (db : SentimentDb),
      db.failing = false →
      (storePointsForStory eid sd pts cnt db).1 = cnt + pts.length) := by
  refine ⟨fun p db h hany => ?_, fun p db h hany => ?_,
    fun p db h hcnt => ?_, fun p db h => ?_, fun eid sd pts => ?_⟩
  · rw [store_sentiment_timeseries, if_neg (by simp [h]), if_pos hany]
  · rw [store_sentiment_timeseries, if_neg (by simp [h]), if_neg (by simp [hany])]
  · have hfilter : db.rows.filter (sameKey p) = [] := by
      have := hcnt
      rwa [keyCount, List.length_eq_zero] at this
    have hnone : ∀ r ∈ db.rows, ¬ sameKey p r = true :=
      List.filter_eq_nil_iff.mp hfilter
    have hany : db.rows.any (sameKey p) = false := by
      rw [← Bool.not_eq_true, List.any_eq_true]
      rintro ⟨r, hr, hk⟩
      exact hnone r hr hk
    have hdb1 : (store_sentiment_timeseries p db).2 =
        { db with rows := db.rows ++ [p] } := by
      rw [store_sentiment_timeseries, if_neg (by simp [h]),
        if_neg (by simp [hany])]
    have hany2 :
        ({ db with rows := db.rows ++ [p] } : SentimentDb).rows.any
          (sameKey p) = true := by
      simp [sameKey_refl]
    have hnoop :
        store_sentiment_timeseries p { db with rows := db.rows ++ [p] } =
          (true, { db with rows := db.rows ++ [p] }) := by
      rw [store_sentiment_timeseries, if_neg (by simp [h]), if_pos hany2]
    rw [hdb1, hnoop, keyCount]
    simp [List.filter_append, hfilter, sameKey_refl]
  · rw [store_sentiment_timeseries, if_pos h]
  · induction pts with
    | nil => intro cnt db h; rfl
    | cons q ps ih =>
        intro cnt db h
        have h1 := store_fst (mkStoryPoint eid sd q) db h
        have h2 := store_failing (mkStoryPoint eid sd q) db h
        simp only [storePointsForStory, List.foldl_cons, h1, if_true]
        have := ih (cnt + 1)
          (store_sentiment_timeseries (mkStoryPoint eid sd q) db).2 h2
        rw [storePointsForStory] at this
        rw [this, List.length_cons]
        omega

/-- Witness for C1: storing the same bucket twice into an empty healthy
store leaves exactly one row. -/
theorem upsert_idempotent_spec_witness :
    keyCount cpoint (store_sentiment_timeseries cpoint
      ((store_sentiment_timeseries cpoint ⟨[], false⟩).2)).2 = 1 :=
  upsert_idempotent_spec.2.2.1 cpoint ⟨[], false⟩ rfl rfl

/-- Counterexample to C1 as stated: the repeated call for an
already-persisted bucket is reported `True` ("stored"), not "not newly
stored", and the stories loop therefore counts 2 stored points while only
1 row is persisted — the job does not count a point as stored only when
the upsert newly persisted it. -/
theorem upsert_reported_stored_cex :
    (store_sentiment_timeseries cpoint
      ((store_sentiment_timeseries cpoint ⟨[], false⟩).2)).1 = true ∧
    (storePointsForStory 1 cSd [cJPoint, cJPoint] 0 ⟨[], false⟩).1 = 2 ∧
    (storePointsForStory 1 cSd [cJPoint, cJPoint] 0 ⟨[], false⟩).2.rows.length
      = 1 :=
  ⟨rfl, rfl, rfl⟩


/-! ### C2: scheduler health -/

/-- Helper: the status list produced by `get_job_health` is the
`jobConfigs` table mapped through `jobStatusFor`. -/
theorem get_job_health_statuses (now : ℚ) (m : List (String × ℚ)) :
    (get_job_health now m).2 =
      jobConfigs.map fun cfg => (cfg.1, jobStatusFor now m cfg.1 cfg.2) := by
  simp [get_job_health, jobConfigs]

/-- Claim C2: a job with no recorded success is never overdue; a job with a
recorded success is overdue iff the elapsed minutes since it strictly
exceed twice the configured interval; the overall healthy flag is the
conjunction of the per-job non-overdue flags; and in the §8 scenario
(interval 15, last success at epoch 0) the news job is overdue at
T+31 minutes, not overdue at T+29 minutes, and never overdue with no
prior success. -/
theorem get_job_health_overdue_spec :
    (∀ (now : ℚ) (m : List (String × ℚ)) (name : String) (interval : ℚ),
      (m.lookup name = none →
        (jobStatusFor now m name interval).overdue = false) ∧
      (∀ t, m.lookup name = some t →
        ((jobStatusFor now m name interval).overdue = true ↔
          (now - t) / 60 > 2 * interval))) ∧
    (∀ (now : ℚ) (m : List (String × ℚ)),
      (get_job_health now m).1 =
        (get_job_health now m).2.all fun p => !p.2.overdue) ∧
    ((get_job_health (31 * 60) [("poll_news", 0)]).2.lookup "poll_news"
        |>.map JobStatus.overdue) = some true ∧
    ((get_job_health (29 * 60) [("poll_news", 0)]).2.lookup "poll_news"
        |>.map JobStatus.overdue) = some false ∧
    ((get_job_health (29 * 60) []).2.lookup "poll_news"
        |>.map JobStatus.overdue) = some false := by
  refine ⟨fun now m name interval => ⟨fun hnone => ?_, fun t hsome => ?_⟩,
    fun now m => ?_, ?_, ?_, ?_⟩
  · simp [jobStatusFor, hnone]
  · simp only [jobStatusFor, hsome]
    rw [decide_eq_true_iff]
    constructor <;> intro h <;> linarith
  · simp only [get_job_health, jobConfigs, List.foldl, List.all, List.append]
    cases (jobStatusFor now m "poll_news" 15).overdue <;>
      cases (jobStatusFor now m "poll_stories" 60).overdue <;> rfl
  all_goals
    rw [get_job_health_statuses]
    simp [jobConfigs, List.lookup, jobStatusFor]
    try norm_num

/-- Witness for C2: the overdue criterion applied at the concrete §8
scenario (interval 15 minutes, last success at epoch second 0, queried at
T+31 minutes). -/
theorem get_job_health_overdue_spec_witness :
    (jobStatusFor (31 * 60) [("poll_news", 0)] "poll_news" 15).overdue = true :=
  ((get_job_health_overdue_spec.1 (31 * 60) [("poll_news", 0)] "poll_news" 15).2
    0 rfl).mpr (by norm_num)

/-! ### C5: retry policy -/

/-- Helper: the retry loop makes at most `remaining` attempts. -/
theorem retryGo_attempts_le {α : Type} (minW maxW : ℚ)
    (beh : ℕ → Except FetchErr α) :
    ∀ r a, (retryGo minW maxW beh r a).attempts ≤ r
  | 0, _ => by simp [retryGo]
  | 1, _ => by simp [retryGo]
  | (r + 2), a => by
      simp only [retryGo]
      cases hb : beh a with
      | ok v => simp
      | error e =>
          by_cases ht : isTransient e
          · simpa [ht] using retryGo_attempts_le minW maxW beh (r + 1) (a + 1)
          · simp [ht]

/-- Helper: every terminating run performs exactly one fewer backoff wait
than it makes attempts (waits happen only between attempts). -/
theorem retryGo_waits_length {α : Type} (minW maxW : ℚ)
    (beh : ℕ → Except FetchErr α) :
    ∀ r a, 1 ≤ r →
      (retryGo minW maxW beh r a).waits.length + 1 =
        (retryGo minW maxW beh r a).attempts
  | 0, _, h => absurd h (by simp)
  | 1, _, _ => by simp [retryGo]
  | (r + 2), a, _ => by
      simp only [retryGo]
      cases hb : beh a with
      | ok v => simp
      | error e =>
          by_cases ht : isTransient e
          · simpa [ht] using
              retryGo_waits_length minW maxW beh (r + 1) (a + 1) (by omega)
          · simp [ht]

/-- Helper: every backoff wait the retry loop performs is clamped into
`[minW, maxW]`. -/
theorem retryGo_waits_bounded {α : Type} (minW maxW : ℚ) (hmm : minW ≤ maxW)
    (beh : ℕ → Except FetchErr α) :
    ∀ r a, ∀ w ∈ (retryGo minW maxW beh r a).waits, minW ≤ w ∧ w ≤ maxW
  | 0, _ => by simp [retryGo]
  | 1, _ => by simp [retryGo]
  | (r + 2), a => by
      simp only [retryGo]
      cases hb : beh a with
      | ok v => simp
      | error e =>
          by_cases ht : isTransient e
          · simp only [ht, if_true]
            intro w hw
            rcases List.mem_cons.mp hw with rfl | hw
            · exact ⟨le_max_left _ _,
                max_le hmm (min_le_right _ _)⟩
            · exact retryGo_waits_bounded minW maxW hmm beh (r + 1) (a + 1) w hw
          · simp [ht]

/-- Claim C5: the retry-wrapped fetches make at most 3 attempts; a fetch
failing transiently on attempts 1 and 2 and succeeding on attempt 3
returns the attempt-3 result after exactly the two exponential-backoff
waits; a non-transient error propagates immediately with no wait; after
exhausting all attempts the last error is re-raised; waits occur only
between attempts (always one fewer wait than attempts); and the waits are
bounded by 1s–16s for the news wrapper and 2s–10s for the stories
wrapper. -/
theorem retry_policy_spec :
    (∀ (α : Type) (minW maxW : ℚ) (beh : ℕ → Except FetchErr α),
      (retryCall minW maxW beh).attempts ≤ 3) ∧
    (∀ (α : Type) (minW maxW : ℚ) (beh : ℕ → Except FetchErr α) e₁ e₂ (v : α),
      beh 1 = .error e₁ → isTransient e₁ = true →
      beh 2 = .error e₂ → isTransient e₂ = true →
      beh 3 = .ok v →
      retryCall minW maxW beh =
        { result := .ok v
          waits := [waitExponential minW maxW 1, waitExponential minW maxW 2]
          attempts := 3 }) ∧
    (∀ (α : Type) (minW maxW : ℚ) (beh : ℕ → Except FetchErr α) e,
      beh 1 = .error e → isTransient e = false →
      retryCall minW maxW beh = { result := .error e, waits := [], attempts := 1 }) ∧
    (∀ (α : Type) (minW maxW : ℚ) (beh : ℕ → Except FetchErr α) e₁ e₂ e₃,
      beh 1 = .error e₁ → isTransient e₁ = true →
      beh 2 = .error e₂ → isTransient e₂ = true →
      beh 3 = .error e₃ →
      (retryCall minW maxW beh).result = .error e₃) ∧
    (∀ (α : Type) (minW maxW : ℚ) (beh : ℕ → Except FetchErr α),
      (retryCall minW maxW beh).waits.length + 1 = (retryCall minW maxW beh).attempts) ∧
    (∀ (α : Type) (beh : ℕ → Except FetchErr α),
      ∀ w ∈ (fetch_from_asknews_with_retry beh).waits, (1 : ℚ) ≤ w ∧ w ≤ 16) ∧
    (∀ (α : Type) (beh : ℕ → Except FetchErr α),
      ∀ w ∈ (fetch_stories_from_asknews_with_retry beh).waits, (2 : ℚ) ≤ w ∧ w ≤ 10) := by
  refine ⟨fun α minW maxW beh => retryGo_attempts_le minW maxW beh 3 1,
    fun α minW maxW beh e₁ e₂ v h1 t1 h2 t2 h3 => ?_,
    fun α minW maxW beh e h1 t1 => ?_,
    fun α minW maxW beh e₁ e₂ e₃ h1 t1 h2 t2 h3 => ?_,
    fun α minW maxW beh => retryGo_waits_length minW maxW beh 3 1 (by omega),
    fun α beh => retryGo_waits_bounded 1 16 (by norm_num) beh 3 1,
    fun α beh => retryGo_waits_bounded 2 10 (by norm_num) beh 3 1⟩
  · simp [retryCall, retryGo, h1, t1, h2, t2, h3]
  · simp [retryCall, retryGo, h1, t1]
  · simp [retryCall, retryGo, h1, t1, h2, t2, h3]

/-! ### C6: entity normalizer -/

/-- Helper: a first-match scan over a disjunction of tests whose left test
fails on every element is the scan over the right test alone. -/
theorem find?_or_of_left_false {α : Type} (p q : α → Bool) :
    ∀ l : List α, (∀ x ∈ l, p x = false) →
      l.find? (fun x => p x || q x) = l.find? q := by
  intro l
  induction l with
  | nil => intro _; rfl
  | cons x xs ih =>
      intro h
      have hx : p x = false := h x (by simp)
      have ih' := ih fun y hy => h y (by simp [hy])
      simp only [List.find?_cons, hx, Bool.false_or, ih']

/-- Helper: the interleaved per-entity loop of `normalize_entity_name`
computes the same result as the spec's strict two-phase algorithm, for
every normalized mention.  If some canonical name matches exactly, the
mention is one of the ten concrete lowered canonical names and both scans
are evaluated; otherwise the exact test fails everywhere and both scans
degenerate to the variation scan. -/
theorem normalizeCore_eq_spec (s : String) :
    normalizeCore s = normalizeSpecCore s := by
  by_cases hex :
      ENTITY_VARIATIONS.find? (fun p => s == pyLower p.1) = none
  · have hall : ∀ p ∈ ENTITY_VARIATIONS, (s == pyLower p.1) = false := by
      intro p hp
      simpa using List.find?_eq_none.mp hex p hp
    have hor := find?_or_of_left_false (fun p => s == pyLower p.1)
      (fun p => p.2.any fun variation =>
        pyIn (pyLower variation) s || pyIn s (pyLower variation))
      ENTITY_VARIATIONS hall
    rw [normalizeCore, normalizeSpecCore, hex]
    exact congrArg (Option.map Prod.fst) hor
  · obtain ⟨p, hp⟩ := Option.ne_none_iff_exists'.mp hex
    have hbeq := List.find?_some hp
    have hs : s = pyLower p.1 := by simpa using hbeq
    have hmem : p ∈ ENTITY_VARIATIONS := List.mem_of_find?_eq_some hp
    subst hs
    simp only [ENTITY_VARIATIONS, List.mem_cons, List.not_mem_nil,
      or_false] at hmem
    rcases hmem with rfl | rfl | rfl | rfl | rfl | rfl | rfl | rfl | rfl | rfl
      <;> decide

/-- Claim C6: soundness — any non-`None` result `c` of
`normalize_entity_name` comes with the normalized (trimmed, lowercased)
mention equal to `c` lowered, or with bidirectional substring overlap
between the normalized mention and one of `c`'s variation strings;
observational equivalence with the spec's two-phase (exact pass first,
then variation pass) algorithm; and no match returns `None` exactly when
every entity's test fails (the unrecognized outcome, never an error). -/
theorem normalize_entity_name_spec :
    (∀ m c, normalize_entity_name m = some c →
      pyLower (pyStrip m) = pyLower c ∨
        ∃ p ∈ ENTITY_VARIATIONS, p.1 = c ∧ ∃ v ∈ p.2,
          pyIn (pyLower v) (pyLower (pyStrip m)) = true ∨
            pyIn (pyLower (pyStrip m)) (pyLower v) = true) ∧
    (∀ m, normalize_entity_name m = normalizeSpecTwoPhase m) ∧
    (∀ m, normalize_entity_name m = none ↔
      ∀ p ∈ ENTITY_VARIATIONS,
        entityMatchTest (pyLower (pyStrip m)) p = false) := by
  refine ⟨fun m c h => ?_, fun m => normalizeCore_eq_spec _, fun m => ?_⟩
  · rw [normalize_entity_name, normalizeCore, Option.map_eq_some'] at h
    obtain ⟨p, hfind, hfst⟩ := h
    have htest := List.find?_some hfind
    have hmem := List.mem_of_find?_eq_some hfind
    rw [entityMatchTest, Bool.or_eq_true] at htest
    rcases htest with hbeq | hany
    · left
      rw [hfst] at hbeq
      simpa using hbeq
    · right
      obtain ⟨v, hv, hov⟩ := List.any_eq_true.mp hany
      refine ⟨p, hmem, hfst, v, hv, ?_⟩
      simpa using hov
  · rw [normalize_entity_name, normalizeCore, Option.map_eq_none',
      List.find?_eq_none]
    simp only [Bool.not_eq_true]

/-- Witness for C6: soundness applied at the concrete mention
"anthropic claude", which normalizes to canonical "Claude". -/
theorem normalize_entity_name_spec_witness :
    pyLower (pyStrip "anthropic claude") = pyLower "Claude" ∨
      ∃ p ∈ ENTITY_VARIATIONS, p.1 = "Claude" ∧ ∃ v ∈ p.2,
        pyIn (pyLower v) (pyLower (pyStrip "anthropic claude")) = true ∨
          pyIn (pyLower (pyStrip "anthropic claude")) (pyLower v) = true :=
  normalize_entity_name_spec.1 "anthropic claude" "Claude" (by decide)

/-! ### C9: deduplication -/

/-- Helper: the accumulator form of the `batch_check_duplicates` loop —
non-duplicates are appended in input order, duplicates are counted. -/
theorem batch_check_duplicates_foldl (store : List ArticleRow) :
    ∀ (l : List CandidateArticle) (acc : List CandidateArticle × ℕ),
      l.foldl
        (fun acc a =>
          if check_article_exists a.external_id a.url store
          then (acc.1, acc.2 + 1)
          else (acc.1 ++ [a], acc.2)) acc =
      (acc.1 ++ l.filter fun a =>
          !check_article_exists a.external_id a.url store,
        acc.2 + (l.filter fun a =>
          check_article_exists a.external_id a.url store).length)
  | [], acc => by simp
  | a :: l, acc => by
      by_cases h : check_article_exists a.external_id a.url store
      · rw [List.foldl_cons, if_pos h,
          batch_check_duplicates_foldl store l _]
        simp [h]
        omega
      · rw [List.foldl_cons, if_neg h,
          batch_check_duplicates_foldl store l _]
        simp [h]

/-- Claim C9: `check_article_exists` flags a duplicate iff a stored row
matches the external id or a stored row's URL hash equals the SHA-256
fingerprint of the candidate's raw URL; the fingerprint is the fixed
digest of the raw URL's UTF-8 bytes and is case-sensitive (no lowercasing
— hashing "A" and "a" differs); a stored article with the same URL and a
different external id is still flagged; and the batch form partitions the
input into the non-duplicates in their original order plus a duplicate
count, the two parts accounting for every input article. -/
theorem deduplication_spec :
    (∀ ext url store, check_article_exists ext url store = true ↔
      (∃ r ∈ store, r.external_id = ext) ∨
        ∃ r ∈ store, r.url_hash = compute_url_hash url) ∧
    (∀ url, compute_url_hash url = sha256Hex (utf8Bytes url)) ∧
    compute_url_hash "A" ≠ compute_url_hash "a" ∧
    (∀ store (r : ArticleRow) (ext' : String), r ∈ store →
      r.url_hash = compute_url_hash r.url →
      check_article_exists ext' r.url store = true) ∧
    (∀ articles store,
      (batch_check_duplicates articles store).1 =
        (articles.filter fun a =>
          !check_article_exists a.external_id a.url store) ∧
      (batch_check_duplicates articles store).2 =
        (articles.filter fun a =>
          check_article_exists a.external_id a.url store).length ∧
      (batch_check_duplicates articles store).1.length +
          (batch_check_duplicates articles store).2 = articles.length) := by
  refine ⟨fun ext url store => ?_, fun url => rfl, by decide,
    fun store r ext' hr hhash => ?_, fun articles store => ?_⟩
  · simp [check_article_exists, List.any_eq_true]
  · rw [check_article_exists, Bool.or_eq_true]
    right
    rw [List.any_eq_true]
    exact ⟨r, hr, by simp [hhash]⟩
  · rw [batch_check_duplicates, batch_check_duplicates_foldl store articles ([], 0)]
    refine ⟨by simp, by simp, ?_⟩
    simp only [List.nil_append, Nat.zero_add]
    rw [← List.countP_eq_length_filter, ← List.countP_eq_length_filter]
    have hsum := List.length_eq_countP_add_countP
      (fun a => check_article_exists a.external_id a.url store) articles
    have hcongr :
        List.countP (fun a => !check_article_exists a.external_id a.url store)
            articles =
          List.countP (fun a =>
            decide ¬(check_article_exists a.external_id a.url store = true))
            articles := by
      congr 1
      funext a
      cases check_article_exists a.external_id a.url store <;> simp
    omega

/-- Witness for C9: a stored article and a candidate sharing its URL under
a different external id — the candidate is flagged as duplicate. -/
theorem deduplication_spec_witness :
    check_article_exists "ext-2"
      (insertedRow ⟨"ext-1", "https://example.com/Story", "Claude"⟩).url
      [insertedRow ⟨"ext-1", "https://example.com/Story", "Claude"⟩] = true :=
  deduplication_spec.2.2.2.1 [insertedRow ⟨"ext-1", "https://example.com/Story", "Claude"⟩]
    (insertedRow ⟨"ext-1", "https://example.com/Story", "Claude"⟩) "ext-2"
    (by simp) rfl

/-- Witness for C5: the fail/fail/succeed scenario run through the news
wrapper returns the attempt-3 result after exactly the waits 1s and 2s. -/
theorem retry_policy_spec_witness :
    fetch_from_asknews_with_retry retryScenarioBeh =
      { result := .ok 42, waits := [1, 2], attempts := 3 } := by
  have h := retry_policy_spec.2.1 ℕ 1 16 retryScenarioBeh
    .timeout .connection 42 rfl rfl rfl rfl rfl
  rw [fetch_from_asknews_with_retry, h]
  norm_num [waitExponential]

/-! ### C3, C4, C10: sentiment extraction -/

/-- Helper: an entry whose or-chained sentiment value is `None` is
silently skipped. -/
theorem processEntry_skip_null (parse : String → Option ℚ)
    (e : List (String × JVal)) (h : sentChainVal e = .null) :
    processEntry parse (.dict e) = .ok none := by
  simp [processEntry, h, isNull]

/-- Helper: an entry whose or-chained timestamp value is falsy is silently
skipped. -/
theorem processEntry_skip_falsy (parse : String → Option ℚ)
    (e : List (String × JVal)) (h : truthy (tsChainVal e) = false) :
    processEntry parse (.dict e) = .ok none := by
  simp [processEntry, h]

/-- Helper: an entry with a truthy, parseable string timestamp chain, a
non-`None` float-coercible sentiment chain and an int-coercible count
chain emits exactly the coerced point. -/
theorem processEntry_emit (parse : String → Option ℚ)
    (e : List (String × JVal)) (s : String) (t q : ℚ) (n : ℤ)
    (hts : tsChainVal e = .str s) (hs : s ≠ "")
    (hparse : parse (replaceZ s) = some t)
    (hnn : sentChainVal e ≠ .null)
    (hfloat : pyFloat (sentChainVal e) = some q)
    (hint : pyInt (countChainVal e) = some n) :
    processEntry parse (.dict e) = .ok (some (.dict
      [("timestamp", .dt t), ("sentiment_mean", .num q),
       ("article_count", .num (n : ℚ))])) := by
  have hnull : isNull (sentChainVal e) = false := by
    cases hv : sentChainVal e <;> simp_all [isNull]
  have htr : truthy (tsChainVal e) = true := by
    rw [hts]; simp [truthy, hs]
  simp only [processEntry, htr, hnull, hts, hparse, hfloat, hint,
    Bool.not_false, Bool.and_self, if_true, Option.map_some']
  simp [truthy, hs]

/-- Claim C3 (amended): an entry emits one coerced time point exactly when
its falsy-skipping timestamp key chain yields a truthy value that (as a
string) parses and its falsy-skipping sentiment key chain yields a
non-`None` coercible value; an entry whose sentiment chain yields `None`
— in particular one carrying the non-null but falsy sentiment `0` under
`sentiment` with no `sentiment_mean`, which the original claim would have
emitted — is skipped silently, as is one with a falsy timestamp chain;
and the §8 scenario yields exactly one point with mean 0.5 and count 3. -/
theorem timeseries_entry_spec :
    (∀ (parse : String → Option ℚ) (e : List (String × JVal)) (s : String)
      (t q : ℚ) (n : ℤ),
      tsChainVal e = .str s → s ≠ "" →
      parse (replaceZ s) = some t →
      sentChainVal e ≠ .null →
      pyFloat (sentChainVal e) = some q →
      pyInt (countChainVal e) = some n →
      processEntry parse (.dict e) = .ok (some (.dict
        [("timestamp", .dt t), ("sentiment_mean", .num q),
         ("article_count", .num (n : ℚ))]))) ∧
    (∀ (parse : String → Option ℚ) (e : List (String × JVal)),
      sentChainVal e = .null → processEntry parse (.dict e) = .ok none) ∧
    (∀ (parse : String → Option ℚ) (e : List (String × JVal)),
      truthy (tsChainVal e) = false → processEntry parse (.dict e) = .ok none) ∧
    (∀ (parse : String → Option ℚ) (e : List (String × JVal)),
      dictGet e "sentiment" = .num 0 → dictGet e "sentiment_mean" = .null →
      processEntry parse (.dict e) = .ok none) ∧
    jLook (extract_story_sentiment fromisoformatModel story8) "timeseries" =
      some (.list [.dict [("timestamp", .dt 20250101000000),
        ("sentiment_mean", .num qHalf), ("article_count", .num 3)]]) := by
  refine ⟨processEntry_emit, processEntry_skip_null, processEntry_skip_falsy,
    fun parse e h0 hm => processEntry_skip_null parse e ?_, rfl⟩
  rw [sentChainVal, h0, hm]
  rfl

/-- Witness for C3: the emission criterion applied at the §8 scenario
entry. -/
theorem timeseries_entry_spec_witness :
    processEntry fromisoformatModel (.dict entry8) = .ok (some (.dict
      [("timestamp", .dt 20250101000000), ("sentiment_mean", .num qHalf),
       ("article_count", .num 3)])) :=
  timeseries_entry_spec.1 fromisoformatModel entry8 "2025-01-01T00:00:00Z"
    20250101000000 qHalf 3 rfl (by decide) rfl (fun h => JVal.noConfusion h)
    rfl rfl

/-- Counterexample to C3 as stated: the entry
`{"timestamp": "2025-01-01T00:00:00Z", "sentiment": 0}` supplies a
parseable timestamp under an accepted key and a non-null sentiment value
under an accepted key, yet the extractor emits no point for it (Python's
`or`-chain treats the falsy `0` as missing). -/
theorem timeseries_zero_sentiment_cex :
    jLook (extract_story_sentiment fromisoformatModel storyZeroSent)
        "timeseries" = some (.list []) ∧
    fromisoformatModel (replaceZ "2025-01-01T00:00:00Z") =
      some 20250101000000 ∧
    dictGet entryZeroSent "sentiment" = .num 0 ∧
    JVal.num 0 ≠ JVal.null :=
  ⟨rfl, rfl, rfl, fun h => JVal.noConfusion h⟩

/-- Helper: a thread whose loop body returns a value returns exactly the
usable-value function of that thread. -/
theorem threadVal_ok (t : JVal) (r : Option ℚ) (h : threadVal t = .ok r) :
    r = redditUsableVal t := by
  cases t with
  | dict e =>
      rw [threadVal] at h
      rw [redditUsableVal]
      split at h
      · simp_all
      · simp_all
  | null => exact Except.noConfusion h
  | bool b => exact Except.noConfusion h
  | num q => exact Except.noConfusion h
  | str s => exact Except.noConfusion h
  | dt q => exact Except.noConfusion h
  | list l => exact Except.noConfusion h

/-- Helper: a successful pass over the threads collects exactly the usable
values, in order. -/
theorem collectReddit_eq :
    ∀ (ts : List JVal) (qs : List ℚ), collectReddit ts = .ok qs →
      qs = ts.filterMap redditUsableVal
  | [], qs, h => by
      rw [collectReddit] at h
      simp only [List.filterMap_nil]
      exact (Except.ok.inj h).symm
  | t :: ts, qs, h => by
      rw [collectReddit] at h
      cases ht : threadVal t with
      | error e => rw [ht] at h; exact Except.noConfusion h
      | ok r =>
          rw [ht] at h
          cases hrest : collectReddit ts with
          | error e => rw [hrest] at h; exact Except.noConfusion h
          | ok rest =>
              rw [hrest] at h
              have hr := threadVal_ok t r ht
              have hrec := collectReddit_eq ts rest hrest
              cases r with
              | some q =>
                  rw [List.filterMap_cons, ← hr, ← hrec]
                  simpa using (Except.ok.inj h).symm
              | none =>
                  rw [List.filterMap_cons, ← hr, ← hrec]
                  simpa using (Except.ok.inj h).symm

/-- Helper: a successful Reddit aggregate is the spec mean together with
the full thread count. -/
theorem redditAgg_ok (ts : List JVal) (rs : Option ℚ) (n : ℕ)
    (h : redditAgg ts = .ok (rs, n)) :
    rs = redditMeanSpec ts ∧ n = ts.length := by
  rw [redditAgg] at h
  by_cases he : ts.isEmpty
  · rw [if_pos he] at h
    have hts : ts = [] := List.isEmpty_iff.mp he
    subst hts
    obtain ⟨h1, h2⟩ := Prod.mk.injEq .. ▸ Except.ok.inj h
    exact ⟨h1.symm, by simpa using h2.symm⟩
  · rw [if_neg he] at h
    cases hc : collectReddit ts with
    | error e => rw [hc] at h; exact Except.noConfusion h
    | ok qs =>
        rw [hc] at h
        obtain ⟨h1, h2⟩ := Prod.mk.injEq .. ▸ Except.ok.inj h
        refine ⟨?_, h2.symm⟩
        rw [← h1, redditMeanSpec, ← collectReddit_eq ts qs hc]

/-- Claim C4 (amended): a successful Reddit aggregate averages exactly the
usable thread values — those whose falsy-skipping sentiment/score chain
yields a non-`None` float-coercible value, so a thread carrying the
numeric but falsy sentiment `0` under `sentiment` alone is excluded from
the mean, against the original claim — with `None` (not zero) when no
thread is usable; the reported thread count is the number of thread
entries seen (when the threads field is a list and extraction does not
fall back); and the returned record carries exactly these two values. -/
theorem reddit_aggregate_spec :
    (∀ (ts : List JVal) (rs : Option ℚ) (n : ℕ),
      redditAgg ts = .ok (rs, n) →
      rs = redditMeanSpec ts ∧ n = ts.length) ∧
    (∀ ts : List JVal, ts.filterMap redditUsableVal = [] →
      redditMeanSpec ts = none) ∧
    (∀ (parse : String → Option ℚ) (d : List (String × JVal))
      (ts tsr : List JVal) (rs : Option ℚ) (n : ℕ),
      extractCore parse (.dict d) = .ok (tsr, rs, n) →
      dictGetD d "reddit_threads" (.list []) = .list ts →
      rs = redditMeanSpec ts ∧ n = ts.length) ∧
    (∀ (parse : String → Option ℚ) (story : JVal) (tsr : List JVal)
      (rs : Option ℚ) (n : ℕ),
      extractCore parse story = .ok (tsr, rs, n) →
      jLook (extract_story_sentiment parse story) "reddit_sentiment" =
          some (jOfOptQ rs) ∧
        jLook (extract_story_sentiment parse story) "reddit_thread_count" =
          some (.num (n : ℚ))) := by
  refine ⟨redditAgg_ok, fun ts h => by simp [redditMeanSpec, h],
    fun parse d ts tsr rs n hcore hrt => ?_,
    fun parse story tsr rs n hcore => ?_⟩
  · rw [extractCore] at hcore
    cases htp : timeseriesPart parse d with
    | error e => rw [htp] at hcore; exact Except.noConfusion hcore
    | ok timeseries =>
        rw [htp] at hcore
        have hrp : redditPart d = redditAgg ts := by
          rw [redditPart, hrt]
        rw [hrp] at hcore
        cases hra : redditAgg ts with
        | error e => rw [hra] at hcore; exact Except.noConfusion hcore
        | ok p =>
            obtain ⟨rs', n'⟩ := p
            rw [hra] at hcore
            have htriple : (timeseries, rs', n') = (tsr, rs, n) :=
              Except.ok.inj hcore
            have hrs : rs' = rs := congrArg (fun x => x.2.1) htriple
            have hn : n' = n := congrArg (fun x => x.2.2) htriple
            obtain ⟨hmean, hlen⟩ := redditAgg_ok ts rs' n' hra
            exact ⟨hrs.symm.trans hmean, hn.symm.trans hlen⟩
  · simp [extract_story_sentiment, hcore, jLook, List.lookup]

/-- Witness for C4: the empty-payload story has no usable thread values —
the Reddit sentiment is `None` (not zero) and the count is zero. -/
theorem reddit_aggregate_spec_witness :
    redditMeanSpec [] = none ∧
    jLook (extract_story_sentiment fromisoformatModel (.dict []))
        "reddit_sentiment" = some (jOfOptQ none) ∧
    jLook (extract_story_sentiment fromisoformatModel (.dict []))
        "reddit_thread_count" = some (.num ((0 : ℕ) : ℚ)) :=
  ⟨reddit_aggregate_spec.2.1 [] rfl,
    (reddit_aggregate_spec.2.2.2 fromisoformatModel (.dict []) [] none 0 rfl).1,
    (reddit_aggregate_spec.2.2.2 fromisoformatModel (.dict []) [] none 0 rfl).2⟩

/-- Counterexample to C4 as stated: with threads
`[{"sentiment": 0}, {"sentiment": 1}]` both threads provide a numeric
sentiment value, so the claimed mean over value-providing threads is
`(0 + 1) / 2 = 1/2`; the code's `or`-chain drops the falsy `0` and
returns mean `1`. -/
theorem reddit_zero_thread_cex :
    (∃ q : ℚ,
      jLook (extract_story_sentiment fromisoformatModel storyZeroOneThreads)
          "reddit_sentiment" = some (.num q) ∧ q = 1) ∧
    dictGet [("sentiment", JVal.num 0)] "sentiment" = .num 0 ∧
    pyFloat (.num 0) = some 0 ∧
    ((0 : ℚ) + 1) / 2 ≠ 1 :=
  ⟨⟨_, rfl, by norm_num [pyOr, dictGet, truthy, pyFloat, List.lookup]⟩,
    rfl, rfl, by norm_num⟩

/-- Claim C10: for every dict story payload the extractor returns (without
raising) a record with exactly the fields `timeseries`,
`reddit_sentiment`, `reddit_thread_count`, `story_id`, `has_reddit`, in
which `has_reddit` holds exactly when the thread count is positive; and
when the body raises internally the record carries the empty timeseries,
null Reddit sentiment and zero thread count. -/
theorem extract_story_sentiment_shape :
    ∀ (parse : String → Option ℚ) (d : List (String × JVal)),
      jKeys (extract_story_sentiment parse (.dict d)) =
        ["timeseries", "reddit_sentiment", "reddit_thread_count",
         "story_id", "has_reddit"] ∧
      (∃ n : ℕ,
        jLook (extract_story_sentiment parse (.dict d))
            "reddit_thread_count" = some (.num (n : ℚ)) ∧
        jLook (extract_story_sentiment parse (.dict d)) "has_reddit" =
          some (.bool (decide (0 < n)))) ∧
      (∀ err, extractCore parse (.dict d) = .error err →
        jLook (extract_story_sentiment parse (.dict d)) "timeseries" =
            some (.list []) ∧
          jLook (extract_story_sentiment parse (.dict d))
            "reddit_sentiment" = some .null ∧
          jLook (extract_story_sentiment parse (.dict d))
            "reddit_thread_count" = some (.num 0)) := by
  intro parse d
  cases hcore : extractCore parse (.dict d) with
  | ok res =>
      obtain ⟨ts, rs, n⟩ := res
      refine ⟨?_, ⟨n, ?_, ?_⟩, fun err herr => ?_⟩
      · simp [extract_story_sentiment, hcore, jKeys]
      · simp [extract_story_sentiment, hcore, jLook, List.lookup]
      · simp [extract_story_sentiment, hcore, jLook, List.lookup]
      · exact Except.noConfusion herr
  | error e =>
      refine ⟨?_, ⟨0, ?_, ?_⟩, fun err herr => ⟨?_, ?_, ?_⟩⟩ <;>
        simp [extract_story_sentiment, hcore, jKeys, jLook, List.lookup]

/-- Witness for C10: the fallback path taken on a story whose time-series
list contains a non-dict entry. -/
theorem extract_story_sentiment_shape_witness :
    jLook (extract_story_sentiment fromisoformatModel storyBadEntry)
        "timeseries" = some (.list []) ∧
    jLook (extract_story_sentiment fromisoformatModel storyBadEntry)
        "reddit_sentiment" = some .null ∧
    jLook (extract_story_sentiment fromisoformatModel storyBadEntry)
        "reddit_thread_count" = some (.num 0) :=
  (extract_story_sentiment_shape fromisoformatModel
    [("sentiment_timeseries", .list [.num 5])]).2.2 () rfl

/-! ### C7, C8: job runners -/

/-- Helper: the database component of the point-storing loop does not
depend on the running stored-count. -/
theorem storePointsForStory_db (eid : ℕ) (sd : JVal) :
    ∀ (pts : List JVal) (cnt : ℕ) (db : SentimentDb),
      (storePointsForStory eid sd pts cnt db).2 =
        pts.foldl
          (fun db point =>
            (store_sentiment_timeseries (mkStoryPoint eid sd point) db).2) db
  | [], _, _ => rfl
  | p :: ps, cnt, db => by
      rw [storePointsForStory, List.foldl_cons, List.foldl_cons]
      exact storePointsForStory_db eid sd ps _ _

/-- Helper: the story-processing fold leaves the successful and failed
counters untouched and evolves the database independently of the
statistics. -/
theorem storyFold_spec (parse : String → Option ℚ) (eid : ℕ) :
    ∀ (stories : List JVal) (st : StoriesStats) (db : SentimentDb),
      ((stories.foldl (storiesStoryStep parse eid) (st, db)).1.successful =
        st.successful) ∧
      ((stories.foldl (storiesStoryStep parse eid) (st, db)).1.failed =
        st.failed) ∧
      ((stories.foldl (storiesStoryStep parse eid) (st, db)).2 =
        stories.foldl (storyDbStep parse eid) db)
  | [], st, db => ⟨rfl, rfl, rfl⟩
  | story :: stories, st, db => by
      rw [List.foldl_cons, List.foldl_cons]
      rcases hacc : storiesStoryStep parse eid (st, db) story with ⟨sacc, dbacc⟩
      have hsucc : sacc.successful = st.successful ∧ sacc.failed = st.failed := by
        have h1 : sacc = (storiesStoryStep parse eid (st, db) story).1 := by
          rw [hacc]
        rw [h1, storiesStoryStep]
        constructor <;> (split <;> rfl)
      have hdb : dbacc = storyDbStep parse eid db story := by
        have h2 : dbacc = (storiesStoryStep parse eid (st, db) story).2 := by
          rw [hacc]
        rw [h2, storiesStoryStep, storyDbStep]
        exact storePointsForStory_db eid _ _ _ _
      obtain ⟨i1, i2, i3⟩ := storyFold_spec parse eid stories sacc dbacc
      exact ⟨i1.trans hsucc.1, i2.trans hsucc.2, by rw [i3, hdb]⟩

/-- Helper: the stories loop characterization — successful and failed grow
by exactly one per entity, failed counts exactly the non-successful
entities, and the database evolves independently of the statistics. -/
theorem storiesLoop_spec (parse : String → Option ℚ)
    (out : String → StoryFetch) :
    ∀ (es : List String) (st : StoriesStats) (db : SentimentDb),
      ((storiesLoop parse out es (st, db)).1.successful +
          (storiesLoop parse out es (st, db)).1.failed =
        st.successful + st.failed + es.length) ∧
      ((storiesLoop parse out es (st, db)).1.failed =
        st.failed + (es.filter fun n => !storyOkB out n).length) ∧
      ((storiesLoop parse out es (st, db)).2 = storiesDbRun parse out es db)
  | [], st, db => by simp [storiesLoop, storiesDbRun]
  | n :: es, st, db => by
      rw [storiesLoop, List.foldl_cons]
      cases ho : out n with
      | noEntity =>
          have ih := storiesLoop_spec parse out es
            { st with failed := st.failed + 1 } db
          rw [storiesLoop] at ih
          simp only [storiesStep, ho]
          refine ⟨by rw [ih.1]; simp; omega, ?_, ?_⟩
          · rw [ih.2.1, List.filter_cons, if_pos (by simp [storyOkB, ho])]
            simp
            omega
          · rw [ih.2.2, storiesDbRun, ho]
      | fetchFail m =>
          have ih := storiesLoop_spec parse out es
            { st with failed := st.failed + 1 } db
          rw [storiesLoop] at ih
          simp only [storiesStep, ho]
          refine ⟨by rw [ih.1]; simp; omega, ?_, ?_⟩
          · rw [ih.2.1, List.filter_cons, if_pos (by simp [storyOkB, ho])]
            simp
            omega
          · rw [ih.2.2, storiesDbRun, ho]
      | fetched eid stories =>
          simp only [storiesStep, ho]
          rcases hacc : stories.foldl (storiesStoryStep parse eid)
            ({ st with
                successful := st.successful + 1
                total_stories := st.total_stories + stories.length }, db)
            with ⟨sacc, dbacc⟩
          obtain ⟨f1, f2, f3⟩ := hacc ▸ storyFold_spec parse eid stories
            { st with
                successful := st.successful + 1
                total_stories := st.total_stories + stories.length } db
          dsimp only at f1 f2 f3
          have ih := storiesLoop_spec parse out es sacc dbacc
          rw [storiesLoop] at ih
          refine ⟨?_, ?_, ?_⟩
          · rw [ih.1, f1, f2]
            simp
            omega
          · rw [ih.2.1, f2, List.filter_cons,
              if_neg (by simp [storyOkB, ho])]
          · rw [ih.2.2, storiesDbRun, ho, f3]

/-- Helper: the stories database run skips failing entities, so it equals
the run over the successful entities alone. -/
theorem storiesDbRun_filter (parse : String → Option ℚ)
    (out : String → StoryFetch) :
    ∀ (es : List String) (db : SentimentDb),
      storiesDbRun parse out es db =
        storiesDbRun parse out (es.filter (storyOkB out)) db
  | [], _ => rfl
  | n :: es, db => by
      cases ho : out n with
      | noEntity =>
          simp only [storiesDbRun, ho, List.filter_cons]
          rw [if_neg (by simp [storyOkB, ho])]
          exact storiesDbRun_filter parse out es db
      | fetchFail m =>
          simp only [storiesDbRun, ho, List.filter_cons]
          rw [if_neg (by simp [storyOkB, ho])]
          exact storiesDbRun_filter parse out es db
      | fetched eid stories =>
          simp only [storiesDbRun, ho, List.filter_cons]
          rw [if_pos (by simp [storyOkB, ho])]
          simp only [storiesDbRun, ho]
          exact storiesDbRun_filter parse out es _

/-- Helper: the news loop characterization — processed and failed counts
grow by exactly one per entity, errors are exactly the failing entities'
pairs in input order, failed counts exactly the failing entities, and the
store evolves independently of the statistics. -/
theorem newsLoop_spec
    (fetch : String → Except String (List CandidateArticle)) :
    ∀ (es : List String) (st : NewsStats) (store : List ArticleRow),
      ((newsLoop fetch es (st, store)).1.entities_processed +
          (newsLoop fetch es (st, store)).1.entities_failed =
        st.entities_processed + st.entities_failed + es.length) ∧
      ((newsLoop fetch es (st, store)).1.errors =
        st.errors ++ es.filterMap (newsFailPair fetch)) ∧
      ((newsLoop fetch es (st, store)).1.entities_failed =
        st.entities_failed + (es.filter fun n => !fetchOkB fetch n).length) ∧
      ((newsLoop fetch es (st, store)).2 = newsStoreRun fetch es store)
  | [], st, store => by simp [newsLoop, newsStoreRun]
  | n :: es, st, store => by
      rw [newsLoop, List.foldl_cons]
      cases hf : fetch n with
      | error m =>
          have ih := newsLoop_spec fetch es
            { st with
                entities_failed := st.entities_failed + 1
                errors := st.errors ++ [(n, m)] } store
          rw [newsLoop] at ih
          simp only [newsStep, hf]
          refine ⟨by rw [ih.1]; simp; omega, ?_, ?_, ?_⟩
          · rw [ih.2.1, List.filterMap_cons]
            simp [newsFailPair, hf]
          · rw [ih.2.2.1, List.filter_cons,
              if_pos (by simp [fetchOkB, hf])]
            simp
            omega
          · rw [ih.2.2.2, newsStoreRun, hf]
      | ok articles =>
          by_cases he : articles.isEmpty
          · have ih := newsLoop_spec fetch es
              { st with
                  total_articles_fetched :=
                    st.total_articles_fetched + articles.length
                  entities_processed := st.entities_processed + 1 } store
            rw [newsLoop] at ih
            simp only [newsStep, hf, if_pos he]
            refine ⟨by rw [ih.1]; simp; omega, ?_, ?_, ?_⟩
            · rw [ih.2.1, List.filterMap_cons]
              simp [newsFailPair, hf]
            · rw [ih.2.2.1, List.filter_cons,
                if_neg (by simp [fetchOkB, hf])]
            · rw [ih.2.2.2]
              simp [newsStoreRun, hf, he]
          · have ih := newsLoop_spec fetch es
              { st with
                  total_articles_fetched :=
                    st.total_articles_fetched + articles.length
                  total_articles_inserted := st.total_articles_inserted +
                    (batch_insert_articles articles store).1
                  entities_processed := st.entities_processed + 1 }
              (batch_insert_articles articles store).2
            rw [newsLoop] at ih
            simp only [newsStep, hf, if_neg he]
            refine ⟨by rw [ih.1]; simp; omega, ?_, ?_, ?_⟩
            · rw [ih.2.1, List.filterMap_cons]
              simp [newsFailPair, hf]
            · rw [ih.2.2.1, List.filter_cons,
                if_neg (by simp [fetchOkB, hf])]
            · rw [ih.2.2.2]
              simp [newsStoreRun, hf, he]

/-- Helper: the news store run skips failing entities, so it equals the
run over the successful entities alone. -/
theorem newsStoreRun_filter
    (fetch : String → Except String (List CandidateArticle)) :
    ∀ (es : List String) (store : List ArticleRow),
      newsStoreRun fetch es store =
        newsStoreRun fetch (es.filter (fetchOkB fetch)) store
  | [], _ => rfl
  | n :: es, store => by
      cases hf : fetch n with
      | error m =>
          simp only [newsStoreRun, hf, List.filter_cons]
          rw [if_neg (by simp [fetchOkB, hf])]
          exact newsStoreRun_filter fetch es store
      | ok articles =>
          have hfil : (n :: es).filter (fetchOkB fetch) =
              n :: es.filter (fetchOkB fetch) := by
            rw [List.filter_cons, if_pos (by simp [fetchOkB, hf])]
          rw [hfil]
          simp only [newsStoreRun, hf]
          by_cases he : articles.isEmpty
          · rw [if_pos he, if_pos he]
            exact newsStoreRun_filter fetch es store
          · rw [if_neg he, if_neg he]
            exact newsStoreRun_filter fetch es _

/-- Helper: exactly one error pair per failing entity. -/
theorem newsFailPair_length
    (fetch : String → Except String (List CandidateArticle)) :
    ∀ es : List String,
      (es.filterMap (newsFailPair fetch)).length =
        (es.filter fun n => !fetchOkB fetch n).length
  | [] => rfl
  | n :: es => by
      rw [List.filterMap_cons, List.filter_cons]
      cases hf : fetch n with
      | error m =>
          simp [newsFailPair, fetchOkB, hf, newsFailPair_length fetch es]
      | ok articles =>
          simp [newsFailPair, fetchOkB, hf, newsFailPair_length fetch es]

/-- Claim C7: with a constructed client, both jobs process every tracked
entity independently — the processed/failed (successful/failed) counts
sum to the number of tracked entities; the news job records exactly the
failing entities' `{entity, error}` pairs (one per failure, in order),
with as many error entries as failures; and each job's final persisted
store is exactly the store produced by running only the successful
entities, so one entity's failure never blocks another entity's fetched
data from being persisted. -/
theorem job_failure_isolation_spec :
    (∀ (fetch : String → Except String (List CandidateArticle))
      (es : List String) (store : List ArticleRow),
      (poll_news_job (.ok ()) fetch es store).1.entities_processed +
        (poll_news_job (.ok ()) fetch es store).1.entities_failed =
        es.length) ∧
    (∀ fetch (es : List String) (store : List ArticleRow),
      (poll_news_job (.ok ()) fetch es store).1.errors =
        es.filterMap (newsFailPair fetch) ∧
      (poll_news_job (.ok ()) fetch es store).1.errors.length =
        (poll_news_job (.ok ()) fetch es store).1.entities_failed) ∧
    (∀ fetch (es : List String) (store : List ArticleRow),
      (poll_news_job (.ok ()) fetch es store).2 =
        newsStoreRun fetch (es.filter (fetchOkB fetch)) store) ∧
    (∀ (parse : String → Option ℚ) (out : String → StoryFetch)
      (es : List String) (db : SentimentDb),
      (poll_stories_job (.ok ()) parse out es db).1.successful +
        (poll_stories_job (.ok ()) parse out es db).1.failed = es.length) ∧
    (∀ parse out (es : List String) (db : SentimentDb),
      (poll_stories_job (.ok ()) parse out es db).1.failed =
        (es.filter fun n => !storyOkB out n).length) ∧
    (∀ parse out (es : List String) (db : SentimentDb),
      (poll_stories_job (.ok ()) parse out es db).2 =
        storiesDbRun parse out (es.filter (storyOkB out)) db) := by
  refine ⟨fun fetch es store => ?_, fun fetch es store => ?_,
    fun fetch es store => ?_, fun parse out es db => ?_,
    fun parse out es db => ?_, fun parse out es db => ?_⟩
  · have h := (newsLoop_spec fetch es zeroNewsStats store).1
    simpa [poll_news_job, zeroNewsStats] using h
  · obtain ⟨-, h2, h3, -⟩ := newsLoop_spec fetch es zeroNewsStats store
    refine ⟨by simpa [poll_news_job, zeroNewsStats] using h2, ?_⟩
    have hl := newsFailPair_length fetch es
    simp only [poll_news_job]
    rw [h2, h3]
    simp [zeroNewsStats, hl]
  · have h := (newsLoop_spec fetch es zeroNewsStats store).2.2.2
    rw [newsStoreRun_filter fetch es store] at h
    simpa [poll_news_job] using h
  · have h := (storiesLoop_spec parse out es
      (initialStoriesStats es.length) db).1
    simpa [poll_stories_job, initialStoriesStats] using h
  · have h := (storiesLoop_spec parse out es
      (initialStoriesStats es.length) db).2.1
    simpa [poll_stories_job, initialStoriesStats] using h
  · have h := (storiesLoop_spec parse out es
      (initialStoriesStats es.length) db).2.2
    rw [storiesDbRun_filter parse out es db] at h
    simpa [poll_stories_job] using h

/-- Claim C8 (amended): on client-construction failure the news job
short-circuits with every entity failed, zero fetched and inserted, and
the single error surfaced exactly once as the pair `("ALL", error)` in
its errors list; the stories job likewise marks every entity failed with
zero stories fetched and zero points stored, but its returned statistics
record has no list of failures at all — its fixed key set never includes
one — so the construction error is not surfaced in the stories job's
return value (only logged). -/
theorem client_init_failure_spec :
    (∀ (exc : String) (fetch : String → Except String (List CandidateArticle))
      (es : List String) (store : List ArticleRow),
      poll_news_job (.error exc) fetch es store =
        (⟨0, es.length, 0, 0, [("ALL", exc)]⟩, store)) ∧
    (∀ exc fetch (es : List String) (store : List ArticleRow),
      (poll_news_job (.error exc) fetch es store).1.errors.length = 1) ∧
    (∀ (st : NewsStats) (started completed : String) (dur : ℚ),
      (newsStatsDict st started completed dur).lookup "errors" =
        some (.list (st.errors.map fun p =>
          .dict [("entity", .str p.1), ("error", .str p.2)]))) ∧
    (∀ (exc : String) (parse : String → Option ℚ)
      (out : String → StoryFetch) (es : List String) (db : SentimentDb),
      poll_stories_job (.error exc) parse out es db =
        ({ initialStoriesStats es.length with failed := es.length }, db)) ∧
    (∀ (st : StoriesStats) (execTime : ℚ),
      (storiesStatsDict st execTime).lookup "errors" = none) :=
  ⟨fun _ _ _ _ => rfl, fun _ _ _ _ => rfl, fun _ _ _ _ => rfl,
    fun _ _ _ _ _ => rfl, fun _ _ => rfl⟩

/-- Counterexample to C8 as stated: on construction failure the stories
job's returned statistics record contains no `{entity, error}` list at
all — the key `"errors"` is absent from its fixed key set — even though
every entity is marked failed; the single construction error is therefore
not surfaced in the stories job's return value. -/
theorem client_init_failure_cex :
    (storiesStatsDict (poll_stories_job
        (.error "ASKNEWS_API_KEY environment variable is required")
        fromisoformatModel (fun _ => .noEntity) ENTITY_NAMES
        ⟨[], false⟩).1 0).lookup "errors" = none ∧
    ((storiesStatsDict (poll_stories_job
        (.error "ASKNEWS_API_KEY environment variable is required")
        fromisoformatModel (fun _ => .noEntity) ENTITY_NAMES
        ⟨[], false⟩).1 0).map Prod.fst).contains "errors" = false ∧
    (poll_stories_job
        (.error "ASKNEWS_API_KEY environment variable is required")
        fromisoformatModel (fun _ => .noEntity) ENTITY_NAMES
        ⟨[], false⟩).1.failed = 10 :=
  ⟨rfl, rfl, rfl⟩

end VibeCheck
